import Mathlib

/-!
Shallow embedding of the GRP panel-tank configurator backend
(`backend/app/services/*.py`) and proofs about its specification claims.

Dimensions are rationals (the program works on floats with half-meter
granularity, where all the arithmetic of interest is exact). Python's
`int()` truncation, `math.ceil` / `math.floor`, banker's `round`, and
2-decimal rounding are modelled explicitly.
-/

namespace TankCfg

/-- Python `int(x)`: truncation toward zero. -/
def pyInt (q : ℚ) : ℤ := if 0 ≤ q then ⌊q⌋ else -⌊-q⌋

/-- Python `round(x)`: round half to even (banker's rounding). -/
def pyRound (q : ℚ) : ℤ :=
  let f : ℤ := ⌊q⌋
  let frac : ℚ := q - f
  if frac < 1/2 then f
  else if 1/2 < frac then f + 1
  else if f % 2 = 0 then f else f + 1

/-- Python `round(x, 2)`: round to 2 decimal places, half to even. -/
def round2 (q : ℚ) : ℚ := (pyRound (q * 100) : ℚ) / 100

/-- Python float `x % y` (used with positive `y`): `x - y*⌊x/y⌋`. -/
def pyMod (x y : ℚ) : ℚ := x - y * ⌊x / y⌋

/-- Excel-style summand `IF(h=x, v, 0)` (also works around a code-generator
limitation on long chains of if-expressions). -/
def ifEq (h x v : ℚ) : ℚ := if h = x then v else 0

/-- Substring test on character lists (Python `pat in s`). -/
def charsContain (pat : List Char) : List Char → Bool
  | [] => pat.isEmpty
  | c :: rest => pat.isPrefixOf (c :: rest) || charsContain pat rest

/-- Python `pat in s` for strings. -/
def strContains (s pat : String) : Bool := charsContain pat.data s.data

/-- A `(part_no, quantity, category, description)` tuple returned by a
calculator module. -/
structure Part where
  part_no : String
  quantity : ℤ
  category : String
  description : String
deriving DecidableEq, Repr

/-- Total quantity reported for one part number in a part list
(aggregating duplicate lines, as the repository's comparison tests do). -/
def qtyOf (parts : List Part) (pn : String) : ℤ :=
  (parts.filter (fun p => p.part_no = pn)).foldl (fun a p => a + p.quantity) 0

/-- Number of partitions: count of non-zero optional length segments. -/
def numPartitions (l2 l3 l4 : ℚ) : ℤ :=
  (if 0 < l2 then 1 else 0) + (if 0 < l3 then 1 else 0) + (if 0 < l4 then 1 else 0)

/-! ## PanelCalculator (`panel_calculator.py`) -/

/-- `PanelCalculator._get_height_key`: the standard height closest to `h`
(Python `min` keeps the first element on ties). -/
def getHeightKey (h : ℚ) : ℚ :=
  [(1.5 : ℚ), 2, 2.5, 3, 3.5, 4, 4.5, 5].foldl
    (fun best x => if |x - h| < |best - h| then x else best) 1

/-- `PANEL_HEIGHT_CONFIG[h]["side"]` with the code's `.get(..., "10S")` default. -/
def sideSuffix (hk : ℚ) : String :=
  if hk = 1 then "10S" else if hk = 1.5 then "15S" else if hk = 2 then "20S"
  else if hk = 2.5 then "15T" else if hk = 3 then "20T" else if hk = 3.5 then "15T"
  else if hk = 4 then "20T" else if hk = 4.5 then "15T" else if hk = 5 then "20T"
  else "10S"

/-- `PANEL_HEIGHT_CONFIG[h]["bottom"]` with the code's `.get(..., "10M")` default. -/
def bottomSuffix (hk : ℚ) : String :=
  if hk = 1 then "10M" else if hk = 1.5 then "15M" else if hk = 2 then "20M"
  else if hk = 2.5 then "25M" else if hk = 3 then "30M" else if hk = 3.5 then "35M"
  else if hk = 4 then "40M" else if hk = 4.5 then "45M" else if hk = 5 then "50M"
  else "10M"

/-- `PANEL_HEIGHT_CONFIG[h]["drain"]` (same table as bottom panels). -/
def drainSuffix (hk : ℚ) : String := bottomSuffix hk

/-- `PanelCalculator._calc_manhole`: quantity `1 + N_PA`. -/
def calcManhole (l2 l3 l4 : ℚ) : List Part :=
  [⟨"MF00M", 1 + numPartitions l2 l3 l4, "Panels", "Manhole Panel"⟩]

/-- `PanelCalculator._calc_roof_panels`. -/
def calcRoofPanels (w l1 l2 l3 l4 : ℚ) : List Part :=
  let W_C : ℤ := pyInt w
  let W_F : ℚ := w - W_C
  let L1_C : ℤ := pyInt l1
  let L1_F : ℚ := l1 - L1_C
  let L2_C : ℤ := if l2 = 0 then 0 else pyInt l2
  let L2_F : ℚ := if l2 = 0 then 0 else l2 - L2_C
  let L3_C : ℤ := if l3 = 0 then 0 else pyInt l3
  let L3_F : ℚ := if l3 = 0 then 0 else l3 - L3_C
  let L4_C : ℤ := if l4 = 0 then 0 else pyInt l4
  let L4_F : ℚ := if l4 = 0 then 0 else l4 - L4_C
  let L_O_C : ℤ := L1_C + L2_C + L3_C + L4_C
  let N_PA : ℤ := numPartitions l2 l3 l4
  let manholeQty : ℤ := 1 + N_PA
  let hasLengthFraction : Bool := 0 < L1_F ∨ 0 < L2_F ∨ 0 < L3_F ∨ 0 < L4_F
  let fracCount : ℤ :=
    (if 0 < L1_F then 1 else 0) + (if 0 < L2_F then 1 else 0) +
    (if 0 < L3_F then 1 else 0) + (if 0 < L4_F then 1 else 0)
  let rqQty : ℤ := if W_F = 0.5 ∧ hasLengthFraction then fracCount else 0
  let x10 : ℤ := rqQty
  let x11 : ℤ := 0
  let wFracCount : ℤ := if 0 < W_F then 1 else 0
  let rhQty : ℤ := W_C * fracCount + wFracCount * L_O_C
  let totalRoof : ℤ := W_C * L_O_C
  let rfQty0 : ℤ := totalRoof - manholeQty - x10 - x11
  let rfQty : ℤ := if rfQty0 < 0 then 0 else rfQty0
  (if 0 < rfQty then [⟨"RF00M", rfQty, "Panels", "Roof Panel 1x1m"⟩] else []) ++
  (if 0 < rhQty then [⟨"RH10M", rhQty, "Panels", "Half Roof Panel 0.5x1m"⟩] else []) ++
  (if 0 < rqQty then [⟨"RQ10M", rqQty, "Panels", "Quarter Roof Panel 0.5x0.5m"⟩] else [])

/-- `PanelCalculator._calc_bottom_panels`. -/
def calcBottomPanels (w l1 l2 l3 l4 h : ℚ) : List Part :=
  let W_C : ℤ := pyInt w
  let W_F : ℚ := w - W_C
  let L1_C : ℤ := pyInt l1
  let L1_F : ℚ := l1 - L1_C
  let L2_C : ℤ := if l2 = 0 then 0 else pyInt l2
  let L2_F : ℚ := if l2 = 0 then 0 else l2 - L2_C
  let L3_C : ℤ := if l3 = 0 then 0 else pyInt l3
  let L3_F : ℚ := if l3 = 0 then 0 else l3 - L3_C
  let L4_C : ℤ := if l4 = 0 then 0 else pyInt l4
  let L4_F : ℚ := if l4 = 0 then 0 else l4 - L4_C
  let L_O_C : ℤ := L1_C + L2_C + L3_C + L4_C
  let N_PA : ℤ := numPartitions l2 l3 l4
  let x13 : ℤ := if 0 < N_PA then W_C * N_PA else 0
  let x17 : ℤ := 1 + N_PA
  let x15 : ℤ := if W_F = 0.5 then N_PA else 0
  let hasLengthFraction : Bool := 0 < L1_F ∨ 0 < L2_F ∨ 0 < L3_F ∨ 0 < L4_F
  let fracCount : ℤ :=
    (if 0 < L1_F then 1 else 0) + (if 0 < L2_F then 1 else 0) +
    (if 0 < L3_F then 1 else 0) + (if 0 < L4_F then 1 else 0)
  let bqQty : ℤ := if W_F = 0.5 ∧ hasLengthFraction then fracCount else 0
  let wFracCount : ℤ := if 0 < W_F then 1 else 0
  let bhQty : ℤ := W_C * fracCount + wFracCount * L_O_C - x15
  let totalBottom : ℤ := W_C * L_O_C
  let bfQty0 : ℤ := totalBottom - x13 - x17
  let bfQty : ℤ := if bfQty0 < 0 then 0 else bfQty0
  let suffix : String := bottomSuffix (getHeightKey h)
  (if 0 < bfQty then [⟨"BF" ++ suffix, bfQty, "Panels", "Bottom Panel 1x1m"⟩] else []) ++
  (if 0 < bhQty then [⟨"BH" ++ suffix, bhQty, "Panels", "Half Bottom Panel 0.5x1m"⟩] else []) ++
  (if 0 < bqQty then [⟨"BQ" ++ suffix, bqQty, "Panels", "Quarter Bottom Panel 0.5x0.5m"⟩] else []) ++
  (if 0 < x13 then
    [⟨"BF" ++ suffix.dropRight 1 ++ "P", x13, "Panels", "Partition Bottom Panel"⟩] else [])

/-- `PanelCalculator._calc_drain_panels`: quantity `1 + N_PA`. -/
def calcDrainPanels (l2 l3 l4 h : ℚ) : List Part :=
  [⟨"DN" ++ drainSuffix (getHeightKey h), 1 + numPartitions l2 l3 l4, "Panels", "Drain Panel"⟩]

/-- `PanelCalculator._calc_side_panels`. -/
def calcSidePanels (w l1 l2 l3 l4 h : ℚ) (useSide1x1 : Bool) : List Part :=
  let W_C : ℤ := pyInt w
  let W_F : ℚ := w - W_C
  let L1_C : ℤ := pyInt l1
  let L1_F : ℚ := l1 - L1_C
  let L2_C : ℤ := if l2 = 0 then 0 else pyInt l2
  let L2_F : ℚ := if l2 = 0 then 0 else l2 - L2_C
  let L3_C : ℤ := if l3 = 0 then 0 else pyInt l3
  let L3_F : ℚ := if l3 = 0 then 0 else l3 - L3_C
  let L4_C : ℤ := if l4 = 0 then 0 else pyInt l4
  let L4_F : ℚ := if l4 = 0 then 0 else l4 - L4_C
  let L_O_C : ℤ := L1_C + L2_C + L3_C + L4_C
  let N_PA : ℤ := numPartitions l2 l3 l4
  let H_C : ℤ := pyInt h
  let H_F : ℚ := h - H_C
  let H_O : ℚ := (H_C : ℚ) + H_F
  let hk : ℚ := getHeightKey h
  let cornerLeft : ℤ := N_PA
  let cornerRight : ℤ := N_PA
  let sideFull : ℤ := (W_C + L_O_C) * 2 - cornerLeft - cornerRight
  let wfCount : ℤ := if 0 < W_F then 1 else 0
  let lfCount : ℤ :=
    (if 0 < L1_F then 1 else 0) + (if 0 < L2_F then 1 else 0) +
    (if 0 < L3_F then 1 else 0) + (if 0 < L4_F then 1 else 0)
  let sideHalf : ℤ := (wfCount + lfCount) * 2
  let panelPre : String := if useSide1x1 then "SF" else "SL"
  let suffix : String := sideSuffix hk
  let heightNum : String := if 2 ≤ suffix.length then suffix.take 2 else "10"
  let tiers :=
    if 2.5 ≤ H_O then
      (if 0 < sideFull then
        [⟨panelPre ++ suffix, sideFull, "Panels", "Side Panel (Top)"⟩] else []) ++
      (if 0 < cornerLeft then
        [⟨panelPre ++ suffix ++ "L", cornerLeft, "Panels", "Corner Side Panel (Top Left)"⟩] else []) ++
      (if 0 < cornerRight then
        [⟨panelPre ++ suffix ++ "R", cornerRight, "Panels", "Corner Side Panel (Top Right)"⟩] else []) ++
      (if 4 ≤ H_O then
        [⟨"SF30M", sideFull, "Panels", "Side Panel (Mid)"⟩] ++
        (if 0 < cornerLeft then
          [⟨"SF30ML", cornerLeft, "Panels", "Corner Side Panel (Mid Left)"⟩] else []) ++
        (if 0 < cornerRight then
          [⟨"SF30MR", cornerRight, "Panels", "Corner Side Panel (Mid Right)"⟩] else [])
       else []) ++
      (if 0 < sideFull then
        [⟨"SF" ++ toString (pyInt (H_O * 10)) ++ "L", sideFull, "Panels", "Side Panel (Low)"⟩]
       else []) ++
      (if 0 < cornerLeft then
        [⟨"SF" ++ toString (pyInt (H_O * 10)) ++ "LL", cornerLeft, "Panels",
          "Corner Side Panel (Low Left)"⟩] else []) ++
      (if 0 < cornerRight then
        [⟨"SF" ++ toString (pyInt (H_O * 10)) ++ "LR", cornerRight, "Panels",
          "Corner Side Panel (Low Right)"⟩] else [])
    else
      (if 0 < sideFull then
        [⟨panelPre ++ suffix, sideFull, "Panels", "Side Panel"⟩] else []) ++
      (if 0 < cornerLeft then
        [⟨panelPre ++ suffix ++ "L", cornerLeft, "Panels", "Corner Side Panel (Left)"⟩] else []) ++
      (if 0 < cornerRight then
        [⟨panelPre ++ suffix ++ "R", cornerRight, "Panels", "Corner Side Panel (Right)"⟩] else [])
  tiers ++
  (if 0 < sideHalf then
    [⟨"SH" ++ heightNum ++ "M", sideHalf, "Panels", "Half Side Panel 0.5x1m"⟩] else [])

/-- `PanelCalculator._calc_partition_panels`. -/
def calcPartitionPanels (w l2 l3 l4 h : ℚ) (usePartition1x1 : Bool) : List Part :=
  let W_C : ℤ := pyInt w
  let W_F : ℚ := w - W_C
  let N_PA : ℤ := numPartitions l2 l3 l4
  let H_C : ℤ := pyInt h
  let H_F : ℚ := h - H_C
  let H_O : ℚ := (H_C : ℚ) + H_F
  let hk : ℚ := getHeightKey h
  if N_PA = 0 then []
  else if 2.5 ≤ H_O then
    let partitionTopQty : ℤ := pyInt ((W_C : ℚ) * N_PA)
    [⟨"PL20TCB", partitionTopQty, "Panels", "Partition Panel (Top)"⟩] ++
    (if 4 ≤ H_O then
      [⟨"SN30M", pyInt ((W_C : ℚ) * N_PA), "Panels", "Partition Panel (Mid)"⟩] else []) ++
    [⟨"PF" ++ toString (pyInt (H_O * 10)) ++ "M", pyInt ((W_C : ℚ) * N_PA),
      "Panels", "Partition Panel (Low)"⟩]
  else
    let suffix : String := sideSuffix hk
    let partFull0 : ℤ := pyInt ((W_C : ℚ) * H_C * N_PA)
    let partHalf0 : ℤ := if 0 < W_F then pyInt (W_F * H_C * N_PA) else 0
    let partFull : ℤ := if 0 < H_F then partFull0 + pyInt ((W_C : ℚ) * N_PA) else partFull0
    let partHalf : ℤ :=
      if 0 < H_F then partHalf0 + (if 0 < W_F then pyInt (W_F * N_PA) else 0) else partHalf0
    let pre : String := if usePartition1x1 then "SF" else "SL"
    let heightNum : String := if 2 ≤ suffix.length then suffix.take 2 else "10"
    (if 0 < partFull then [⟨pre ++ suffix, partFull, "Panels", "Partition Panel"⟩] else []) ++
    (if 0 < partHalf then
      [⟨"SH" ++ heightNum ++ "M", partHalf, "Panels", "Half Partition Panel"⟩] else [])

/-- `PanelCalculator.calculate_all_panels`: concatenation of all panel
groups, keeping only strictly positive quantities. -/
def calculateAllPanels (w l1 l2 l3 l4 h : ℚ) (useSide1x1 usePartition1x1 : Bool) : List Part :=
  let panels :=
    calcManhole l2 l3 l4 ++
    calcRoofPanels w l1 l2 l3 l4 ++
    calcBottomPanels w l1 l2 l3 l4 h ++
    calcDrainPanels l2 l3 l4 h ++
    calcSidePanels w l1 l2 l3 l4 h useSide1x1 ++
    (if 0 < numPartitions l2 l3 l4 then calcPartitionPanels w l2 l3 l4 h usePartition1x1 else [])
  panels.filter (fun p => 0 < p.quantity)

/-! ## BoltsCalculator (`bolts_calculator.py`) -/

/-- `BOLT_OPTIONS[opt]["external"]` (with the `.get(opt, BOLT_OPTIONS[1])`
default used by `__init__`). -/
def boltExternalMaterial (opt : ℤ) : Option String :=
  if opt = 1 then some "Z" else if opt = 2 then some "Z" else if opt = 3 then some "SA4"
  else if opt = 4 then some "Z" else if opt = 5 then some "SA4" else if opt = 6 then some "SA2"
  else if opt = 7 then none else if opt = 8 then none else some "Z"

/-- `BOLT_OPTIONS[opt]["internal"]` (with the same default). -/
def boltInternalMaterial (opt : ℤ) : Option String :=
  if opt = 1 then some "SA4" else if opt = 2 then some "SA4" else if opt = 3 then some "SA2"
  else if opt = 4 then some "SA2" else if opt = 5 then some "SA4" else if opt = 6 then some "SA2"
  else if opt = 7 then none else if opt = 8 then none else some "SA4"

/-- Inputs of `BoltsCalculator` beyond the dimensions: the option code and the
cross-sheet values the orchestrator may thread in (all default to the values
`CalculationEngine._calculate_bolts_nuts` uses). -/
structure BoltsArgs where
  boltOption : ℤ := 1
  skidType : ℤ := 1
  insulationType : ℤ := 0
  steelSkidM9 : ℤ := 0
  steelSkidM36 : ℤ := 0
  extReinforcingL22 : ℤ := 0
  extReinforcingL23 : ℤ := 0
  extReinforcingL24 : ℤ := 0
  intReinforcingP18 : ℤ := 0
  intReinforcingP19 : ℤ := 0
deriving Repr

/-- `BoltsCalculator._calc_wbt_1035_external`. -/
def calcWbt1035External (h : ℚ) : ℤ :=
  let row9 : ℤ :=
    (if h = 2.5 then 4 else 0) + (if h = 3 then 4 else 0) + (if h = 3.5 then 8 else 0) +
    (if h = 4 then 8 else 0) + (if h = 4.5 then 12 else 0) + (if h = 5 then 12 else 0)
  let row10 : ℤ := pyInt (h * 8 * 2 * 4)
  row9 + row10

/-- `BoltsCalculator._calc_wbt_1035_internal`. -/
def calcWbt1035Internal (w l1 l2 l3 l4 : ℚ) : ℤ :=
  let W_C : ℤ := pyInt w
  let W_F : ℚ := w - W_C
  let L1_C : ℤ := pyInt l1
  let L1_F : ℚ := l1 - L1_C
  let L2_C : ℤ := if l2 = 0 then 0 else pyInt l2
  let L2_F : ℚ := if l2 = 0 then 0 else l2 - L2_C
  let L3_C : ℤ := if l3 = 0 then 0 else pyInt l3
  let L3_F : ℚ := if l3 = 0 then 0 else l3 - L3_C
  let L4_C : ℤ := if l4 = 0 then 0 else pyInt l4
  let L4_F : ℚ := if l4 = 0 then 0 else l4 - L4_C
  let sumLC : ℤ := L1_C + L2_C + L3_C + L4_C
  let sumLF : ℚ := L1_F + L2_F + L3_F + L4_F
  let sumLTotal : ℚ := (sumLC : ℚ) + sumLF
  let N_PA : ℤ := numPartitions l2 l3 l4
  let row5 : ℚ := (4 * W_C + 2 * W_F) * (sumLTotal - N_PA - 1)
  let row6 : ℚ := (4 * (sumLC : ℚ) + 2 * sumLF) * (⌈w - 1⌉ : ℚ)
  max 0 (pyInt row5) + max 0 (pyInt row6)

/-- `BoltsCalculator._calc_wbt_1050_external`. -/
def calcWbt1050External (w l1 l2 l3 l4 h : ℚ) (insulationType : ℤ) : ℤ :=
  let W_C : ℤ := pyInt w
  let W_F : ℚ := w - W_C
  let L1_C : ℤ := pyInt l1
  let L1_F : ℚ := l1 - L1_C
  let L2_C : ℤ := if l2 = 0 then 0 else pyInt l2
  let L2_F : ℚ := if l2 = 0 then 0 else l2 - L2_C
  let L3_C : ℤ := if l3 = 0 then 0 else pyInt l3
  let L3_F : ℚ := if l3 = 0 then 0 else l3 - L3_C
  let L4_C : ℤ := if l4 = 0 then 0 else pyInt l4
  let L4_F : ℚ := if l4 = 0 then 0 else l4 - L4_C
  let sumLC : ℤ := L1_C + L2_C + L3_C + L4_C
  let sumLF : ℚ := L1_F + L2_F + L3_F + L4_F
  let sumLTotal : ℚ := (sumLC : ℚ) + sumLF
  let L_O_C : ℤ := sumLC
  let L_O_F : ℚ := sumLF
  let H_C : ℤ := pyInt h
  let H_F : ℚ := h - H_C
  let row12 : ℚ := (8 * W_C + 4 * W_F) * (sumLTotal - 1)
  let row13 : ℚ := (8 * (sumLC : ℚ) + 4 * sumLF) * (⌈w - 1⌉ : ℚ)
  let row14 : ℚ := h * (((W_C : ℚ) + W_F - 1) + ((L_O_C : ℚ) + L_O_F - 1)) * 2 * 8
  let row15a : ℚ :=
    if 2 < h then
      8 * ((W_C : ℚ) + sumLC) * 2 * ((H_C : ℚ) + H_F - 2) +
      4 * (h - 1) * (W_F + sumLF) * ((H_C : ℚ) + H_F - 2)
    else 0
  let row15 : ℚ :=
    if 0 < insulationType then row15a + 8 * ((W_C : ℚ) + sumLC) * 2 + 4 * (W_F + sumLF)
    else row15a
  let row16 : ℚ := (((sumLC : ℚ) + W_C) * 8 + (sumLF + W_F) * 4) * 2
  max 0 (pyInt row12) + max 0 (pyInt row13) + pyInt row14 + pyInt row15 + pyInt row16

/-- `BoltsCalculator._calc_wbt_1050_internal`. -/
def calcWbt1050Internal (w l1 l2 l3 l4 h : ℚ) (insulationType : ℤ) : ℤ :=
  let W_C : ℤ := pyInt w
  let W_F : ℚ := w - W_C
  let W_O : ℚ := w
  let L1_C : ℤ := pyInt l1
  let L1_F : ℚ := l1 - L1_C
  let L2_C : ℤ := if l2 = 0 then 0 else pyInt l2
  let L2_F : ℚ := if l2 = 0 then 0 else l2 - L2_C
  let L3_C : ℤ := if l3 = 0 then 0 else pyInt l3
  let L3_F : ℚ := if l3 = 0 then 0 else l3 - L3_C
  let L4_C : ℤ := if l4 = 0 then 0 else pyInt l4
  let L4_F : ℚ := if l4 = 0 then 0 else l4 - L4_C
  let sumLC : ℤ := L1_C + L2_C + L3_C + L4_C
  let sumLF : ℚ := L1_F + L2_F + L3_F + L4_F
  let H_C : ℤ := pyInt h
  let H_F : ℚ := h - H_C
  let N_PA : ℤ := numPartitions l2 l3 l4
  let row11 : ℚ := ((sumLC : ℚ) + W_C) * 4 * 2 + (sumLF + W_F) * 2 * 2
  let base : ℤ := pyInt row11
  if 0 < N_PA then
    let row19 : ℚ := 4 * ((W_C : ℚ) + W_F) * N_PA
    let row36 : ℚ :=
      if insulationType = 2 then (W_O * 8 * ((H_C : ℚ) + H_F - 2)) * N_PA
      else
        ((if h = 1.5 then W_F * 4 else (W_O * 8 * ((H_C : ℚ) + H_F - 2)) * N_PA) +
         (if h = 2 ∨ h = 3 ∨ h = 4 ∨ h = 5 then W_O * 8 else 0)) * N_PA
    let row37 : ℚ := (((W_C : ℚ) + W_F - 1) * h) * 8 * N_PA
    base + pyInt row19 + max 0 (pyInt row36) + max 0 (pyInt row37)
  else base

/-- `BoltsCalculator._calc_wbt_1240`. -/
def calcWbt1240 (w l1 l2 l3 l4 : ℚ) : ℤ :=
  let W_C : ℤ := pyInt w
  let W_F : ℚ := w - W_C
  let L1_C : ℤ := pyInt l1
  let L1_F : ℚ := l1 - L1_C
  let L2_C : ℤ := if l2 = 0 then 0 else pyInt l2
  let L2_F : ℚ := if l2 = 0 then 0 else l2 - L2_C
  let L3_C : ℤ := if l3 = 0 then 0 else pyInt l3
  let L3_F : ℚ := if l3 = 0 then 0 else l3 - L3_C
  let L4_C : ℤ := if l4 = 0 then 0 else pyInt l4
  let L4_F : ℚ := if l4 = 0 then 0 else l4 - L4_C
  let L_O_C : ℤ := L1_C + L2_C + L3_C + L4_C
  let L_O_F : ℚ := L1_F + L2_F + L3_F + L4_F
  pyInt (((W_C : ℚ) + W_F + (L_O_C : ℚ) + L_O_F) * 2 * 2)

/-- `BoltsCalculator._calc_wbt_1440`. -/
def calcWbt1440 (w l1 l2 l3 l4 h : ℚ) (skidType steelSkidM9 steelSkidM36 : ℤ) : ℤ :=
  let W_C : ℤ := pyInt w
  let W_F : ℚ := w - W_C
  let L1_C : ℤ := pyInt l1
  let L1_F : ℚ := l1 - L1_C
  let L2_C : ℤ := if l2 = 0 then 0 else pyInt l2
  let L2_F : ℚ := if l2 = 0 then 0 else l2 - L2_C
  let L3_C : ℤ := if l3 = 0 then 0 else pyInt l3
  let L3_F : ℚ := if l3 = 0 then 0 else l3 - L3_C
  let L4_C : ℤ := if l4 = 0 then 0 else pyInt l4
  let L4_F : ℚ := if l4 = 0 then 0 else l4 - L4_C
  let sumLC : ℤ := L1_C + L2_C + L3_C + L4_C
  let sumLF : ℚ := L1_F + L2_F + L3_F + L4_F
  let sumLTotal : ℚ := (sumLC : ℚ) + sumLF
  let row21a : ℚ := ((W_C : ℚ) + W_F + 1) * 4
  let row21 : ℚ :=
    if 2 < h ∨ skidType = 3 ∨ skidType = 4 then row21a + ((W_C : ℚ) + W_F + 1) * 4 else row21a
  let row22 : ℚ := 2 * (sumLTotal - 1) * ((W_C : ℚ) + W_F + 1)
  let row23 : ℤ := steelSkidM36
  let row24 : ℤ :=
    if 2.5 < h ∨ skidType = 2 ∨ skidType = 3 then 2 * steelSkidM9 + 2 * steelSkidM9
    else 2 * steelSkidM9
  pyInt row21 + max 0 (pyInt row22) + row23 + row24

/-- `BoltsCalculator._calc_wbt_1058r`. -/
def calcWbt1058r (w l2 l3 l4 h : ℚ) : ℤ :=
  let N_PA : ℤ := numPartitions l2 l3 l4
  if N_PA = 0 then 0
  else pyInt (h * 8 * 2 * N_PA) + pyInt (w * 8 * N_PA)

/-- `BoltsCalculator._calc_wbt_14120r`. -/
def calcWbt14120r (w l1 l2 l3 l4 h : ℚ) (l22 l23 l24 : ℤ) : ℤ :=
  let W_C : ℤ := pyInt w
  let W_F : ℚ := w - W_C
  let L1_C : ℤ := pyInt l1
  let L1_F : ℚ := l1 - L1_C
  let L2_C : ℤ := if l2 = 0 then 0 else pyInt l2
  let L2_F : ℚ := if l2 = 0 then 0 else l2 - L2_C
  let L3_C : ℤ := if l3 = 0 then 0 else pyInt l3
  let L3_F : ℚ := if l3 = 0 then 0 else l3 - L3_C
  let L4_C : ℤ := if l4 = 0 then 0 else pyInt l4
  let L4_F : ℚ := if l4 = 0 then 0 else l4 - L4_C
  let L_O_C : ℤ := L1_C + L2_C + L3_C + L4_C
  let L_O_F : ℚ := L1_F + L2_F + L3_F + L4_F
  let N_PA : ℤ := numPartitions l2 l3 l4
  let row30 : ℤ := l22 * 2 + l23 * 4 + l24 * 2
  let row39 : ℚ :=
    if 3.3 < h then (((W_C : ℚ) + W_F - 1) + (L_O_C : ℚ) + L_O_F - N_PA - 1) * 2 * 2 else 0
  row30 + max 0 (pyInt row39)

/-- `BoltsCalculator._calc_wbt_14120r_internal`. -/
def calcWbt14120rInternal (l2 l3 l4 : ℚ) (p18 p19 : ℤ) : ℤ :=
  let N_PA : ℤ := numPartitions l2 l3 l4
  if N_PA = 0 then 0 else p18 * 4 * N_PA + p19 * 2 * N_PA

/-- `BoltsCalculator.calculate_all_parts`. -/
def boltsCalculateAllParts (w l1 l2 l3 l4 h : ℚ) (a : BoltsArgs) : List Part :=
  let N_PA : ℤ := numPartitions l2 l3 l4
  if a.boltOption = 7 then []
  else
    let extMaterial := boltExternalMaterial a.boltOption
    let intMaterial := boltInternalMaterial a.boltOption
    let parts : List Part :=
      (if a.boltOption ≠ 8 then
        (match extMaterial with
         | some m =>
            let q := calcWbt1035External h
            if 0 < q then [⟨"WBT-1035" ++ m, q, "Bolts & Nuts", "M10x35mm Bolt (" ++ m ++ ")"⟩]
            else []
         | none => []) ++
        (match intMaterial with
         | some m =>
            let q := calcWbt1035Internal w l1 l2 l3 l4
            if 0 < q then
              [⟨"WBT-1035" ++ m, q, "Bolts & Nuts", "M10x35mm Roof Bolt (" ++ m ++ ")"⟩]
            else []
         | none => [])
       else []) ++
      (if a.boltOption ≠ 8 then
        (match extMaterial with
         | some m =>
            let q := calcWbt1050External w l1 l2 l3 l4 h a.insulationType
            if 0 < q then [⟨"WBT-1050" ++ m, q, "Bolts & Nuts", "M10x50mm Bolt (" ++ m ++ ")"⟩]
            else []
         | none => []) ++
        (match intMaterial with
         | some m =>
            let q := calcWbt1050Internal w l1 l2 l3 l4 h a.insulationType
            if 0 < q then
              [⟨"WBT-1050" ++ m, q, "Bolts & Nuts", "M10x50mm Roof/Partition Bolt (" ++ m ++ ")"⟩]
            else []
         | none => [])
       else []) ++
      (if a.boltOption ≠ 8 then
        (match extMaterial with
         | some m =>
            let q := calcWbt1240 w l1 l2 l3 l4
            if 0 < q then [⟨"WBT-1240" ++ m, q, "Bolts & Nuts", "M12x40mm Bolt (" ++ m ++ ")"⟩]
            else []
         | none => [])
       else []) ++
      (if a.boltOption ≠ 8 then
        (match extMaterial with
         | some m =>
            let q := calcWbt1440 w l1 l2 l3 l4 h a.skidType a.steelSkidM9 a.steelSkidM36
            if 0 < q then [⟨"WBT-1440" ++ m, q, "Bolts & Nuts", "M14x40mm Bolt (" ++ m ++ ")"⟩]
            else []
         | none => [])
       else []) ++
      (if 0 < N_PA then
        (match intMaterial with
         | some m =>
            let q := calcWbt1058r w l2 l3 l4 h
            if 0 < q then
              [⟨"WBT-1058R" ++ m, q, "Bolts & Nuts", "M10x58mm Rubber Bolt (" ++ m ++ ")"⟩]
            else []
         | none => [])
       else []) ++
      (let q := calcWbt14120r w l1 l2 l3 l4 h a.extReinforcingL22 a.extReinforcingL23
                  a.extReinforcingL24
       if 0 < q then [⟨"WBT-14120RD", q, "Bolts & Nuts", "M14x120mm Rubber HDG Bolt"⟩]
       else []) ++
      (if 0 < N_PA then
        (match intMaterial with
         | some m =>
            let q := calcWbt14120rInternal l2 l3 l4 a.intReinforcingP18 a.intReinforcingP19
            if 0 < q then
              [⟨"WBT-14120R" ++ m, q, "Bolts & Nuts",
                "M14x120mm Rubber Internal Bolt (" ++ m ++ ")"⟩]
            else []
         | none => [])
       else [])
    parts.filter (fun p => 0 < p.quantity)

/-! ## SteelSkidCalculator (`steel_skid_calculator.py`) -/

/-- `SteelSkidCalculator._resolve_skid_type`: explicit selections 2–5 map
directly; the default selection (any other code) is resolved by height. -/
def resolveSkidType (h : ℚ) (skidType : ℤ) : String :=
  if skidType = 5 then "except"
  else if skidType = 2 then "75_angle"
  else if skidType = 3 then "125_channel"
  else if skidType = 4 then "150_channel"
  else
    if 4.3 < h then "150_channel"
    else if 2.5 < h then "125_channel"
    else if 0 < h then "75_angle"
    else "except"

/-- `SteelSkidCalculator._get_type_suffix`. -/
def skidTypeSuffix (actual : String) : String :=
  if actual = "75_angle" then "AL" else if actual = "125_channel" then "CL"
  else if actual = "150_channel" then "HCL" else "AL"

/-- `SteelSkidCalculator._get_short_suffix`. -/
def skidShortSuffix (actual : String) : String :=
  if actual = "75_angle" then "AS" else if actual = "125_channel" then "CS"
  else if actual = "150_channel" then "HCS" else "AS"

/-- `SteelSkidCalculator._get_connector_parts` (main, cross). -/
def skidConnectorParts (actual : String) : String × String :=
  if actual = "75_angle" then ("WBR-7575Z", "WBR-0240Z")
  else if actual = "125_channel" then ("WBR-0120Z", "WBR-21590Z")
  else if actual = "150_channel" then ("WBR-0150Z", "WBR-22310Z")
  else ("WBR-7575Z", "WBR-0240Z")

/-- `SteelSkidCalculator._calc_frame_990_qty`. -/
def calcFrame990Qty (w l1 l2 l3 l4 : ℚ) : ℤ :=
  let W_C : ℤ := pyInt w
  let W_F : ℚ := w - W_C
  let L1_C : ℤ := pyInt l1
  let L1_F : ℚ := l1 - L1_C
  let L2_C : ℤ := if l2 = 0 then 0 else pyInt l2
  let L2_F : ℚ := if l2 = 0 then 0 else l2 - L2_C
  let L3_C : ℤ := if l3 = 0 then 0 else pyInt l3
  let L3_F : ℚ := if l3 = 0 then 0 else l3 - L3_C
  let L4_C : ℤ := if l4 = 0 then 0 else pyInt l4
  let L4_F : ℚ := if l4 = 0 then 0 else l4 - L4_C
  let m1 : ℚ := if 0 < L1_F then pyMod (l1 - 1.5) 2 else ((L1_C % 2 : ℤ) : ℚ)
  let m2 : ℚ :=
    if 0 < L2_F then pyMod (l2 - 1.5) 2 else if 0 < L2_C then ((L2_C % 2 : ℤ) : ℚ) else 0
  let m3 : ℚ :=
    if 0 < L3_F then pyMod (l3 - 1.5) 2 else if 0 < L3_C then ((L3_C % 2 : ℤ) : ℚ) else 0
  let m4 : ℚ :=
    if 0 < L4_F then pyMod (l4 - 1.5) 2 else if 0 < L4_C then ((L4_C % 2 : ℤ) : ℚ) else 0
  pyInt ((m1 + m2 + m3 + m4) * ((W_C : ℚ) + W_F + 1))

/-- `SteelSkidCalculator._calc_width_frames`. -/
def calcWidthFrames (w : ℚ) (actual : String) (shortSuffix : String) : List Part :=
  let W_C : ℤ := pyInt w
  let W_F : ℚ := w - W_C
  let W_O : ℚ := (W_C : ℚ) + W_F
  let wfIsHalf : Bool := W_F = 0.5
  let isEvenQty : ℤ :=
    (if W_O = 3.5 then 1 else 0) +
    (if 3.5 < W_O then
      (if ¬ wfIsHalf then (if pyInt W_O % 2 = 0 then 2 else 0)
       else (if pyInt (W_O - 0.5) % 2 = 0 then 2 else 0))
     else 0)
  let isOddQty : ℤ :=
    (if W_O = 3 then 2 else if W_O = 3.5 then 1 else 0) +
    (if 3.5 < W_O then
      (if ¬ wfIsHalf then (if pyInt W_O % 2 = 1 then 2 else 0)
       else (if pyInt (W_O - 0.5) % 2 = 1 then 2 else 0))
     else 0)
  let centerQty : ℤ :=
    if ¬ wfIsHalf then
      (if 3.5 < W_O then
        (if pyInt W_O % 2 = 0 then pyInt ((W_O - 4) / 2 * 2) else pyInt ((W_O - 3) / 2 * 2))
       else 0)
    else
      (if 4 < W_O then
        let wAdj := W_O - 0.5
        (if pyInt wAdj % 2 = 0 then pyInt ((wAdj - 4) / 2 * 2) else pyInt ((wAdj - 3) / 2 * 2))
       else 0)
  let halfQty : ℤ := if 3.5 < W_O ∧ wfIsHalf then 2 else 0
  let smallWidthQty : ℤ :=
    if W_O = 1 then 2 else if W_O = 1.5 then 2 else if W_O = 2 then 2
    else if W_O = 2.5 then 2 else 0
  if 3 ≤ W_O then
    (if 0 < isOddQty then
      [⟨"WFF-2000" ++ shortSuffix ++ "Z", isOddQty, "Steel Skid", "Steel Skid(Main-W)"⟩]
     else []) ++
    (if 0 < isEvenQty then
      let sideWidth : String := if actual = "75_angle" then "1570" else "1560"
      [⟨"WFF-" ++ sideWidth ++ shortSuffix ++ "ZR", isEvenQty, "Steel Skid", "Steel Skid(Main-W)"⟩,
       ⟨"WFF-" ++ sideWidth ++ shortSuffix ++ "ZL", isEvenQty, "Steel Skid", "Steel Skid(Main-W)"⟩]
     else []) ++
    (if 0 < centerQty then
      [⟨"WFF-2000" ++ shortSuffix ++ "Z", centerQty, "Steel Skid", "Steel Skid(Main-W) Center"⟩]
     else []) ++
    (if 0 < halfQty then
      [⟨"WFF-0500" ++ shortSuffix ++ "Z", halfQty, "Steel Skid", "Steel Skid(Main-W) Half"⟩]
     else [])
  else if 0 < smallWidthQty then
    [⟨"WFF-2000" ++ shortSuffix ++ "Z", smallWidthQty, "Steel Skid", "Steel Skid(Main-W)"⟩]
  else []

/-- `SteelSkidCalculator._calc_sub_frames`. -/
def calcSubFrames (w l1 l2 l3 l4 : ℚ) (actual : String) : List Part :=
  let W_C : ℤ := pyInt w
  let W_F : ℚ := w - W_C
  let W_O : ℚ := (W_C : ℚ) + W_F
  let totalCeilingLength : ℤ := ⌈l1⌉ + ⌈l2⌉ + ⌈l3⌉ + ⌈l4⌉
  let lengthFactor : ℤ := totalCeilingLength - 1
  let wIsInteger : Bool := (pyInt W_O : ℚ) = W_O
  let mainSubQty : ℤ := if 3.5 ≤ W_O then pyInt (((pyRound W_O : ℚ) - 3) * lengthFactor) else 0
  let sideSubQty : ℤ :=
    if W_O = 1.5 then 1 * lengthFactor else if W_O = 2 then 1 * lengthFactor
    else if 2.5 ≤ W_O then 2 * lengthFactor else 0
  let cornerSubQty : ℤ := if 3 ≤ W_O ∧ wIsInteger then 1 * lengthFactor else 0
  let halfSubQty : ℤ := if ¬ wIsInteger ∧ 2.5 ≤ W_O then 1 * lengthFactor else 0
  let sidePart : String := if actual = "75_angle" then "WFF-0957AMZ" else "WFF-0962AMZ"
  let cornerPart : String := if actual = "75_angle" then "WFF-1063AMZ" else "WFF-1053AMZ"
  (if 0 < mainSubQty then [⟨"WFF-0994AMZ", mainSubQty, "Steel Skid", "Steel Skid(Sub)"⟩] else []) ++
  (if 0 < sideSubQty then [⟨sidePart, sideSubQty, "Steel Skid", "Steel Skid(Sub)"⟩] else []) ++
  (if 0 < cornerSubQty then [⟨cornerPart, cornerSubQty, "Steel Skid", "Steel Skid(Sub)"⟩] else []) ++
  (if 0 < halfSubQty then
    [⟨"WFF-0500AMZ", halfSubQty, "Steel Skid", "Steel Skid(Sub) Half"⟩] else [])

/-- `SteelSkidCalculator._calc_liner_qty`. -/
def calcLinerQty (w l1 l2 l3 l4 : ℚ) : ℤ :=
  let W_C : ℤ := pyInt w
  let W_F : ℚ := w - W_C
  let totalCeilingLength : ℤ := ⌈l1⌉ + ⌈l2⌉ + ⌈l3⌉ + ⌈l4⌉
  ⌈((W_C : ℚ) + W_F + 1) * ((totalCeilingLength : ℚ) + 1) * 4.6⌉

/-- `SteelSkidCalculator.calculate_all_parts`. -/
def steelSkidCalculateAllParts (w l1 l2 l3 l4 h : ℚ) (skidType : ℤ) : List Part :=
  let actual : String := resolveSkidType h skidType
  if actual = "except" then []
  else
    let W_C : ℤ := pyInt w
    let W_F : ℚ := w - W_C
    let L_O : ℚ := l1 + l2 + l3 + l4
    let L1_C : ℤ := pyInt l1
    let L2_C : ℤ := if l2 = 0 then 0 else pyInt l2
    let L3_C : ℤ := if l3 = 0 then 0 else pyInt l3
    let L4_C : ℤ := if l4 = 0 then 0 else pyInt l4
    let L1_F : ℚ := l1 - L1_C
    let L2_F : ℚ := if l2 = 0 then 0 else l2 - L2_C
    let L3_F : ℚ := if l3 = 0 then 0 else l3 - L3_C
    let L4_F : ℚ := if l4 = 0 then 0 else l4 - L4_C
    let L_O_C : ℤ := L1_C + L2_C + L3_C + L4_C
    let L_O_F : ℚ := L1_F + L2_F + L3_F + L4_F
    let mainConnector : String := (skidConnectorParts actual).1
    let crossConnector : String := (skidConnectorParts actual).2
    let typeSuffix : String := skidTypeSuffix actual
    let shortSuffix : String := skidShortSuffix actual
    let mainBeamQty : ℤ := pyInt (((W_C : ℚ) + W_F + 1) * 2)
    let frame1990Qty : ℤ :=
      if 0 < L_O_F then ⌊(L_O - 1.5) / 2⌋ * pyInt ((W_C : ℚ) + W_F + 1)
      else pyInt ((L_O_C : ℚ) / 2) * pyInt ((W_C : ℚ) + W_F + 1)
    let frame990Qty : ℤ := calcFrame990Qty w l1 l2 l3 l4
    let widthFrames := calcWidthFrames w actual shortSuffix
    let subFrames := calcSubFrames w l1 l2 l3 l4 actual
    let subFrameTotal : ℤ := subFrames.foldl (fun a p => a + p.quantity) 0
    let crossBeamQty : ℤ := pyInt (((subFrameTotal : ℚ) / 2 - 1) * 2)
    let linerQty : ℤ := calcLinerQty w l1 l2 l3 l4
    let anchorQty : ℤ :=
      if 3 < h then pyInt (4 + ((W_C : ℚ) + W_F - 1) * 2 + (L_O - 1) * 2)
      else pyInt (4 + ((W_C : ℚ) + W_F - 2) + (L_O - 2))
    let parts : List Part :=
      [⟨mainConnector, mainBeamQty, "Steel Skid", "Steel Skid Connector"⟩] ++
      (if 0 < frame1990Qty then
        [⟨"WFF-1990" ++ typeSuffix ++ "Z", frame1990Qty, "Steel Skid", "Steel Skid(Main-L)"⟩]
       else []) ++
      (if 0 < frame990Qty then
        [⟨"WFF-0990" ++ typeSuffix ++ "Z", frame990Qty, "Steel Skid", "Steel Skid(Main-L)"⟩]
       else []) ++
      widthFrames ++ subFrames ++
      (if 0 < crossBeamQty then
        [⟨crossConnector, crossBeamQty, "Steel Skid", "Steel Skid Connector"⟩] else []) ++
      (if 0 < linerQty then [⟨"LNR-3.0T", linerQty, "Steel Skid", "Liner"⟩] else []) ++
      (if 0 < anchorQty then
        [⟨"WBR-5010Z", anchorQty, "Steel Skid", "Anchor Bracket with bolt and nut set"⟩] else [])
    parts.filter (fun p => 0 < p.quantity)

/-! ## ReinforcingCalculator (`reinforcing_calculator.py`) -/

/-- `ReinforcingCalculator.__init__`: the internal-material suffix,
`"SA2"` for code 2 (SS316) and `"SA4"` otherwise. -/
def reinforcingMaterialSuffix (internalMaterial : ℤ) : String :=
  if internalMaterial = 2 then "SA2" else "SA4"

/-- `ReinforcingCalculator._calc_wbr_9090` (`Internal_Reinforcing!S23`). -/
def calcWbr9090 (h : ℚ) : ℤ :=
  (if h = 2.5 then 4 else 0) + (if h = 3 then 4 else 0) + (if h = 3.5 then 8 else 0) +
  (if h = 4 then 8 else 0) + (if h = 4.5 then 8 else 0) + (if h = 5 then 12 else 0)

/-- External reinforcing row 12 quantity (`WFB-0950ZP`). -/
def extWfb0950zpQty (w l1 l2 l3 l4 h : ℚ) : ℚ :=
  let W_C : ℤ := pyInt w
  let W_F : ℚ := w - W_C
  let L1_C : ℤ := pyInt l1
  let L1_F : ℚ := l1 - L1_C
  let L2_C : ℤ := if l2 = 0 then 0 else pyInt l2
  let L2_F : ℚ := if l2 = 0 then 0 else l2 - L2_C
  let L3_C : ℤ := if l3 = 0 then 0 else pyInt l3
  let L3_F : ℚ := if l3 = 0 then 0 else l3 - L3_C
  let L4_C : ℤ := if l4 = 0 then 0 else pyInt l4
  let L4_F : ℚ := if l4 = 0 then 0 else l4 - L4_C
  let sumLC : ℤ := L1_C + L2_C + L3_C + L4_C
  let sumLF : ℚ := L1_F + L2_F + L3_F + L4_F
  let N_PA : ℤ := numPartitions l2 l3 l4
  let p12 : ℚ :=
    (if 1.3 < h then ((W_C : ℚ) + sumLC) * 2 else 0) +
    (if 4.3 < h then ((W_C : ℚ) + sumLC) * 2 else 0)
  let q12 : ℚ :=
    if h = 3.5 ∨ h = 4 ∨ h = 4.5 ∨ h = 5 then ((W_C : ℚ) + sumLC) * 2 else 0
  let r12 : ℚ :=
    (if h = 3 ∨ h = 3.5 then 4 * 2 else 0) + (if h = 4 ∨ h = 4.5 then 4 * 2 * 2 else 0) +
    (if h = 5 then 4 * 3 * 2 else 0)
  let u12 : ℚ :=
    if h = 3 ∨ h = 3.5 ∨ h = 4 ∨ h = 4.5 ∨ h = 5 then
      (((W_C : ℚ) + W_F - 1) + ((sumLC : ℚ) + sumLF - 1)) * 2
    else 0
  let x12 : ℚ := if 1 < h then (W_C : ℚ) * N_PA else 0
  p12 + q12 + r12 + u12 + x12

/-- External reinforcing row 13 quantity (`WFB-0950Z`). -/
def extWfb0950zQty (w l1 l2 l3 l4 h : ℚ) : ℚ :=
  let W_C : ℤ := pyInt w
  let W_F : ℚ := w - W_C
  let L1_C : ℤ := pyInt l1
  let L1_F : ℚ := l1 - L1_C
  let L2_C : ℤ := if l2 = 0 then 0 else pyInt l2
  let L2_F : ℚ := if l2 = 0 then 0 else l2 - L2_C
  let L3_C : ℤ := if l3 = 0 then 0 else pyInt l3
  let L3_F : ℚ := if l3 = 0 then 0 else l3 - L3_C
  let L4_C : ℤ := if l4 = 0 then 0 else pyInt l4
  let L4_F : ℚ := if l4 = 0 then 0 else l4 - L4_C
  let sumLC : ℤ := L1_C + L2_C + L3_C + L4_C
  let sumLF : ℚ := L1_F + L2_F + L3_F + L4_F
  let q13 : ℚ :=
    (if h = 2.5 ∨ h = 3 then ((W_C : ℚ) + sumLC) * 2 else 0) +
    (if h = 3.5 ∨ h = 4 then ((W_C : ℚ) + sumLC) * 2 * 2 else 0) +
    (if h = 4.5 ∨ h = 5 then ((W_C : ℚ) + sumLC) * 2 * 3 else 0)
  let u13 : ℚ :=
    (if h = 2.5 ∨ h = 3 then (((W_C : ℚ) + W_F - 1) + ((sumLC : ℚ) + sumLF - 1)) * 2 else 0) +
    (if h = 3.5 ∨ h = 4 then (((W_C : ℚ) + W_F - 1) + ((sumLC : ℚ) + sumLF - 1)) * 2 * 2 else 0) +
    (if h = 4.5 ∨ h = 5 then (((W_C : ℚ) + W_F - 1) + ((sumLC : ℚ) + sumLF - 1)) * 2 * 3 else 0)
  q13 + u13

/-- External reinforcing row 15 quantity (`WFB-1200Z`). -/
def extWfb1200zQty (w l1 l2 l3 l4 h : ℚ) (insulation : Bool) : ℚ :=
  let W_C : ℤ := pyInt w
  let W_F : ℚ := w - W_C
  let L1_C : ℤ := pyInt l1
  let L1_F : ℚ := l1 - L1_C
  let L2_C : ℤ := if l2 = 0 then 0 else pyInt l2
  let L2_F : ℚ := if l2 = 0 then 0 else l2 - L2_C
  let L3_C : ℤ := if l3 = 0 then 0 else pyInt l3
  let L3_F : ℚ := if l3 = 0 then 0 else l3 - L3_C
  let L4_C : ℤ := if l4 = 0 then 0 else pyInt l4
  let L4_F : ℚ := if l4 = 0 then 0 else l4 - L4_C
  let L_O_C : ℤ := L1_C + L2_C + L3_C + L4_C
  let L_O_F : ℚ := L1_F + L2_F + L3_F + L4_F
  if insulation then 0
  else
    (if h = 1.5 ∨ h = 2.5 then (((W_C : ℚ) + W_F - 1) + ((L_O_C : ℚ) + L_O_F - 1)) * 2 else 0) +
    (if h = 2 ∨ h = 3 then (((W_C : ℚ) + W_F - 1) + ((L_O_C : ℚ) + L_O_F - 1)) * 2 else 0) +
    (if h = 3.5 ∨ h = 4 then (((W_C : ℚ) + W_F - 1) + ((L_O_C : ℚ) + L_O_F - 1)) * 2 * 2 else 0) +
    (if h = 4.5 ∨ h = 5 then (((W_C : ℚ) + W_F - 1) + ((L_O_C : ℚ) + L_O_F - 1)) * 2 * 3 else 0)

/-- External reinforcing row 22 quantity (`WCP-1780Z`). -/
def extWcp1780zQty (w l1 l2 l3 l4 h : ℚ) : ℚ :=
  let W_C : ℤ := pyInt w
  let W_F : ℚ := w - W_C
  let L1_C : ℤ := pyInt l1
  let L1_F : ℚ := l1 - L1_C
  let L2_C : ℤ := if l2 = 0 then 0 else pyInt l2
  let L2_F : ℚ := if l2 = 0 then 0 else l2 - L2_C
  let L3_C : ℤ := if l3 = 0 then 0 else pyInt l3
  let L3_F : ℚ := if l3 = 0 then 0 else l3 - L3_C
  let L4_C : ℤ := if l4 = 0 then 0 else pyInt l4
  let L4_F : ℚ := if l4 = 0 then 0 else l4 - L4_C
  let L_O_C : ℤ := L1_C + L2_C + L3_C + L4_C
  let L_O_F : ℚ := L1_F + L2_F + L3_F + L4_F
  let N_PA : ℤ := numPartitions l2 l3 l4
  let p22 : ℚ :=
    if 3.3 < h then (((W_C : ℚ) + W_F - 1) + (L_O_C : ℚ) + L_O_F - N_PA - 1) * 2 else 0
  let r22 : ℚ := (calcWbr9090 h : ℚ) * 2
  let perim : ℚ := (W_C : ℚ) + W_F - 1 + (L_O_C : ℚ) + L_O_F - 1 - N_PA
  let u22 : ℚ :=
    (if h = 1.5 then perim * 2 else 0) + (if h = 2 then perim * 2 else 0) +
    (if h = 2.5 then perim * 2 else 0) + (if h = 3 then perim * 2 else 0) +
    (if h = 3.5 then perim * 2 * 2 else 0) + (if h = 4 then perim * 2 * 2 else 0) +
    (if h = 4.5 then perim * 2 * 3 else 0) + (if h = 5 then perim * 2 * 3 else 0)
  let v22 : ℚ :=
    (if h = 2.5 ∨ h = 3 then (N_PA : ℚ) * 2 else 0) +
    (if h = 3.5 ∨ h = 4 then (N_PA : ℚ) * 4 else 0) +
    (if h = 4.5 ∨ h = 5 then (N_PA : ℚ) * 6 else 0)
  p22 + r22 + u22 + v22

/-- External reinforcing row 23 quantity (`WCP-1616Z`). -/
def extWcp1616zQty (w l1 l2 l3 l4 h : ℚ) : ℚ :=
  let W_C : ℤ := pyInt w
  let W_F : ℚ := w - W_C
  let L1_C : ℤ := pyInt l1
  let L1_F : ℚ := l1 - L1_C
  let L2_C : ℤ := if l2 = 0 then 0 else pyInt l2
  let L2_F : ℚ := if l2 = 0 then 0 else l2 - L2_C
  let L3_C : ℤ := if l3 = 0 then 0 else pyInt l3
  let L3_F : ℚ := if l3 = 0 then 0 else l3 - L3_C
  let L4_C : ℤ := if l4 = 0 then 0 else pyInt l4
  let L4_F : ℚ := if l4 = 0 then 0 else l4 - L4_C
  let L_O_C : ℤ := L1_C + L2_C + L3_C + L4_C
  let L_O_F : ℚ := L1_F + L2_F + L3_F + L4_F
  let N_PA : ℤ := numPartitions l2 l3 l4
  let perimB : ℚ := ((W_C : ℚ) + W_F - 1) + ((L_O_C : ℚ) + L_O_F - 1 - N_PA)
  ifEq h 2.5 (perimB * 2) + ifEq h 3 (perimB * 2) +
  ifEq h 3.5 (perimB * 2 * 2) + ifEq h 4 (perimB * 2 * 2) +
  ifEq h 4.5 (perimB * 2 * 3) + ifEq h 5 (perimB * 2 * 3)

/-- `ReinforcingCalculator._calc_external_reinforcing`. -/
def calcExternalReinforcing (w l1 l2 l3 l4 h : ℚ) (insulation : Bool) : List Part :=
  let N_PA : ℤ := numPartitions l2 l3 l4
  let wfb0950zp : ℚ := extWfb0950zpQty w l1 l2 l3 l4 h
  let wfb0950z : ℚ := extWfb0950zQty w l1 l2 l3 l4 h
  let wfb1200z : ℚ := extWfb1200zQty w l1 l2 l3 l4 h insulation
  let r18 : ℚ := (if h = 1 then 4 else 0) + (if h = 2.5 then 4 else 0) + (if h = 3 then 4 else 0)
  let r19 : ℚ :=
    (if h = 1.5 then 4 else 0) + (if h = 3.5 then 4 else 0) + (if h = 2.5 then 4 else 0) +
    (if h = 4.5 then 12 else 0) + (if h = 5 then 8 else 0)
  let r20 : ℚ :=
    (if h = 2 then 4 else 0) + (if h = 3.5 then 4 else 0) + (if h = 4 then 8 else 0) +
    (if h = 5 then 4 else 0) + (if h = 3 then 4 else 0)
  let wcp1780z : ℚ := extWcp1780zQty w l1 l2 l3 l4 h
  let wcp1616z : ℚ := extWcp1616zQty w l1 l2 l3 l4 h
  let wfb0880zp : ℚ :=
    if 0 < N_PA then
      (if h = 2 ∨ h = 2.5 ∨ h = 3 ∨ h = 3.5 ∨ h = 4 ∨ h = 4.5 ∨ h = 5 then (N_PA : ℚ) * 2 else 0)
    else 0
  (if 0 < wfb0950zp then
    [⟨"WFB-0950ZP", pyInt wfb0950zp, "External Reinforcing", "F/L Reinforcing plate"⟩] else []) ++
  (if 0 < wfb0950z then
    [⟨"WFB-0950Z", pyInt wfb0950z, "External Reinforcing", "F/L Reinforcing Angle"⟩] else []) ++
  (if 0 < wfb1200z then
    [⟨"WFB-1200Z", pyInt wfb1200z, "External Reinforcing", "F/L Reinforcing Angle 1200"⟩] else []) ++
  (if 0 < r18 then
    [⟨"WCF-1000Z", pyInt r18, "External Reinforcing", "Corner Frame 1000mm"⟩] else []) ++
  (if 0 < r19 then
    [⟨"WCF-1500Z", pyInt r19, "External Reinforcing", "Corner Frame 1500mm"⟩] else []) ++
  (if 0 < r20 then
    [⟨"WCF-2000Z", pyInt r20, "External Reinforcing", "Corner Frame 2000mm"⟩] else []) ++
  (if 0 < wcp1780z then
    [⟨"WCP-1780Z", pyInt wcp1780z, "External Reinforcing", "Cross Plate BKT(2 Hole)"⟩] else []) ++
  (if 0 < wcp1616z then
    [⟨"WCP-1616Z", pyInt wcp1616z, "External Reinforcing", "Cross Plate BKT(4 Hole)"⟩] else []) ++
  (if 0 < wfb0880zp then
    [⟨"WFB-0880ZP", pyInt wfb0880zp, "External Reinforcing", "F/L Reinforcing plate Partition"⟩]
   else [])

/-- Internal reinforcing row 8 quantity (`WFB-1200`). -/
def intRowWfb1200 (w l2 l3 l4 h : ℚ) (insulation : Bool) : ℚ :=
  let W_C : ℤ := pyInt w
  let W_F : ℚ := w - W_C
  let N_PA : ℤ := numPartitions l2 l3 l4
  if ¬ insulation ∧ 0 < N_PA then
    (if h = 1.5 ∨ h = 2 ∨ h = 2.5 ∨ h = 3 ∨ h = 3.5 ∨ h = 4 ∨ h = 4.5 ∨ h = 5 then
      ((W_C : ℚ) + W_F - 1) * N_PA
     else 0)
  else 0

/-- Internal reinforcing row 9 quantity (`WFB-0880`). -/
def intRowWfb0880 (w l2 l3 l4 h : ℚ) (insulation : Bool) : ℚ :=
  let W_C : ℤ := pyInt w
  let W_F : ℚ := w - W_C
  let N_PA : ℤ := numPartitions l2 l3 l4
  if 0 < N_PA then
    (if insulation ∧ 1.5 < h then ((W_C : ℚ) + W_F - 1) * N_PA else 0) +
    (if ¬ insulation ∧ 2 < h then ((W_C : ℚ) + W_F - 1) * N_PA else 0)
  else 0

/-- Internal reinforcing row 11 quantity (`WFB-0880P`). -/
def intRowWfb0880p (w l2 l3 l4 h : ℚ) : ℚ :=
  let W_C : ℤ := pyInt w
  let W_F : ℚ := w - W_C
  let N_PA : ℤ := numPartitions l2 l3 l4
  if 0 < N_PA ∧ 2.5 < h then ((W_C : ℚ) + W_F - 1) * N_PA else 0

/-- Internal reinforcing row 12 quantity (`WFB-0950`). -/
def intRowWfb0950 (w l2 l3 l4 h : ℚ) (insulation : Bool) : ℚ :=
  let W_C : ℤ := pyInt w
  let W_F : ℚ := w - W_C
  let N_PA : ℤ := numPartitions l2 l3 l4
  if 0 < N_PA then
    if ¬ insulation then
      (if h = 3.5 ∨ h = 4 then ((W_C : ℚ) + W_F - 1) * N_PA else 0) +
      (if h = 4.5 ∨ h = 5 then ((W_C : ℚ) + W_F - 1) * 2 * N_PA else 0)
    else
      (if h = 3 ∨ h = 3.5 then ((W_C : ℚ) + W_F - 1) * N_PA else 0) +
      (if h = 4 ∨ h = 4.5 then ((W_C : ℚ) + W_F - 1) * 2 * N_PA else 0)
  else 0

/-- Internal reinforcing row 13 quantity (`WFB-0950P`). -/
def intRowWfb0950p (w l2 l3 l4 h : ℚ) (insulation : Bool) : ℚ :=
  let W_C : ℤ := pyInt w
  let W_F : ℚ := w - W_C
  let N_PA : ℤ := numPartitions l2 l3 l4
  if 0 < N_PA ∧ insulation then
    (if h = 4 then ((W_C : ℚ) + W_F - 1) * N_PA else 0) +
    (if h = 4.5 ∨ h = 5 then ((W_C : ℚ) + W_F - 1) * 2 * N_PA else 0)
  else 0

/-- Internal reinforcing row 15 quantity (`WFB-0450`). -/
def intRowWfb0450 (w l2 l3 l4 h : ℚ) (insulation : Bool) : ℚ :=
  let W_C : ℤ := pyInt w
  let W_F : ℚ := w - W_C
  let N_PA : ℤ := numPartitions l2 l3 l4
  if 0 < N_PA ∧ insulation then
    (if h = 2.5 ∨ h = 3.5 ∨ h = 4.5 then ((W_C : ℚ) + W_F - 1) * N_PA else 0)
  else 0

/-- Internal reinforcing row 18 quantity (`WCP-1616`). -/
def intRowWcp1616 (w l2 l3 l4 h : ℚ) : ℚ :=
  let W_C : ℤ := pyInt w
  let W_F : ℚ := w - W_C
  let H_C : ℤ := pyInt h
  let H_F : ℚ := h - H_C
  let N_PA : ℤ := numPartitions l2 l3 l4
  if 0 < N_PA ∧ (h = 3 ∨ h = 3.5 ∨ h = 4 ∨ h = 4.5 ∨ h = 5) then
    ((W_C : ℚ) + W_F - 1) * N_PA * ((H_C : ℚ) + H_F - 2)
  else 0

/-- Internal reinforcing row 19 quantity (`WCP-1780`). -/
def intRowWcp1780 (w l2 l3 l4 h : ℚ) : ℚ :=
  let W_C : ℤ := pyInt w
  let W_F : ℚ := w - W_C
  let N_PA : ℤ := numPartitions l2 l3 l4
  if 0 < N_PA ∧ 1 < h then ((W_C : ℚ) + W_F - 1) * N_PA else 0

/-- Perimeter term `(W_C+W_F-1+L_O_C+L_O_F-1-N_PA)*2` shared by rows 20-21. -/
def intPerim2 (w l1 l2 l3 l4 : ℚ) : ℚ :=
  let W_C : ℤ := pyInt w
  let W_F : ℚ := w - W_C
  let L1_C : ℤ := pyInt l1
  let L1_F : ℚ := l1 - L1_C
  let L2_C : ℤ := if l2 = 0 then 0 else pyInt l2
  let L2_F : ℚ := if l2 = 0 then 0 else l2 - L2_C
  let L3_C : ℤ := if l3 = 0 then 0 else pyInt l3
  let L3_F : ℚ := if l3 = 0 then 0 else l3 - L3_C
  let L4_C : ℤ := if l4 = 0 then 0 else pyInt l4
  let L4_F : ℚ := if l4 = 0 then 0 else l4 - L4_C
  let L_O_C : ℤ := L1_C + L2_C + L3_C + L4_C
  let L_O_F : ℚ := L1_F + L2_F + L3_F + L4_F
  let N_PA : ℤ := numPartitions l2 l3 l4
  ((W_C : ℚ) + W_F - 1 + (L_O_C : ℚ) + L_O_F - 1 - N_PA) * 2

/-- Partition term `(W_C+W_F-1)*N_PA*2` shared by rows 20-21. -/
def intPartitionBase (w l2 l3 l4 : ℚ) : ℚ :=
  let W_C : ℤ := pyInt w
  let W_F : ℚ := w - W_C
  let N_PA : ℤ := numPartitions l2 l3 l4
  ((W_C : ℚ) + W_F - 1) * N_PA * 2

/-- Internal reinforcing row 20 quantity (`WCP-17160`). -/
def intRowWcp17160 (w l1 l2 l3 l4 h : ℚ) : ℚ :=
  let perim2 : ℚ := intPerim2 w l1 l2 l3 l4
  let partitionBase : ℚ := intPartitionBase w l2 l3 l4
  if h = 3 then perim2 + partitionBase
  else if h = 3.5 then (perim2 + partitionBase) * 2
  else if h = 4 then (perim2 + partitionBase) * 2
  else if h = 4.5 then (perim2 + partitionBase) * 3
  else if h = 5 then (perim2 + partitionBase) * 3
  else 0

/-- Internal reinforcing row 21 quantity (`WCP-1760`). -/
def intRowWcp1760 (w l1 l2 l3 l4 h : ℚ) : ℚ :=
  let perim2 : ℚ := intPerim2 w l1 l2 l3 l4
  let partitionBase : ℚ := intPartitionBase w l2 l3 l4
  let N_PA : ℤ := numPartitions l2 l3 l4
  if 1 < h then
    perim2 + partitionBase +
    ifEq h 2.5 (perim2 + partitionBase + (N_PA : ℚ) * 2) +
    ifEq h 3 ((N_PA : ℚ) * 2) +
    ifEq h 3.5 (perim2 + partitionBase + (N_PA : ℚ) * 4) +
    ifEq h 4 ((N_PA : ℚ) * 4) +
    ifEq h 4.5 (perim2 + partitionBase + (N_PA : ℚ) * 6) +
    ifEq h 5 ((N_PA : ℚ) * 6)
  else 0

/-- Internal reinforcing row 24 quantity (`WBR-1010`). -/
def intRowWbr1010 (w l1 l2 l3 l4 h : ℚ) : ℚ :=
  let W_C : ℤ := pyInt w
  let W_F : ℚ := w - W_C
  let L1_C : ℤ := pyInt l1
  let L1_F : ℚ := l1 - L1_C
  let L2_C : ℤ := if l2 = 0 then 0 else pyInt l2
  let L2_F : ℚ := if l2 = 0 then 0 else l2 - L2_C
  let L3_C : ℤ := if l3 = 0 then 0 else pyInt l3
  let L3_F : ℚ := if l3 = 0 then 0 else l3 - L3_C
  let L4_C : ℤ := if l4 = 0 then 0 else pyInt l4
  let L4_F : ℚ := if l4 = 0 then 0 else l4 - L4_C
  let L_O_C : ℤ := L1_C + L2_C + L3_C + L4_C
  let L_O_F : ℚ := L1_F + L2_F + L3_F + L4_F
  let N_PA : ℤ := numPartitions l2 l3 l4
  if 3 < h then (((W_C : ℚ) + W_F - 1) + (L_O_C : ℚ) + L_O_F - N_PA - 1) * 2 else 0

/-- `ReinforcingCalculator._calc_internal_reinforcing`, with the
material suffix (computed once by `__init__`) as a parameter and the row
quantities factored into the `intRow*` definitions above. -/
def calcInternalReinforcing (w l1 l2 l3 l4 h : ℚ) (ms : String) (insulation : Bool) :
    List Part :=
  if h < 1.5 then []
  else
    (if 0 < intRowWfb1200 w l2 l3 l4 h insulation then
      [⟨"WFB-1200" ++ ms, pyInt (intRowWfb1200 w l2 l3 l4 h insulation),
        "Internal Reinforcing", "F/L Reinforcing Angle"⟩] else []) ++
    (if 0 < intRowWfb0880 w l2 l3 l4 h insulation then
      [⟨"WFB-0880" ++ ms, pyInt (intRowWfb0880 w l2 l3 l4 h insulation),
        "Internal Reinforcing", "F/L Reinforcing Angle"⟩] else []) ++
    (if 0 < intRowWfb0880p w l2 l3 l4 h then
      [⟨"WFB-0880P" ++ ms, pyInt (intRowWfb0880p w l2 l3 l4 h),
        "Internal Reinforcing", "F/L Reinforcing Plate"⟩] else []) ++
    (if 0 < intRowWfb0950 w l2 l3 l4 h insulation then
      [⟨"WFB-0950" ++ ms, pyInt (intRowWfb0950 w l2 l3 l4 h insulation),
        "Internal Reinforcing", "F/L Reinforcing Angle"⟩] else []) ++
    (if 0 < intRowWfb0950p w l2 l3 l4 h insulation then
      [⟨"WFB-0950P" ++ ms, pyInt (intRowWfb0950p w l2 l3 l4 h insulation),
        "Internal Reinforcing", "F/L Reinforcing Plate"⟩] else []) ++
    (if 0 < intRowWfb0450 w l2 l3 l4 h insulation then
      [⟨"WFB-0450" ++ ms, pyInt (intRowWfb0450 w l2 l3 l4 h insulation),
        "Internal Reinforcing", "F/L Reinforcing Angle"⟩] else []) ++
    (if 0 < intRowWcp1616 w l2 l3 l4 h then
      [⟨"WCP-1616" ++ ms, pyInt (intRowWcp1616 w l2 l3 l4 h),
        "Internal Reinforcing", "Cross Plate(4 Hole) Partition"⟩] else []) ++
    (if 0 < intRowWcp1780 w l2 l3 l4 h then
      [⟨"WCP-1780" ++ ms, pyInt (intRowWcp1780 w l2 l3 l4 h),
        "Internal Reinforcing", "Cross Plate(2 Hole) Partition"⟩] else []) ++
    (if 0 < intRowWcp17160 w l1 l2 l3 l4 h then
      [⟨"WCP-17160" ++ ms, pyInt (intRowWcp17160 w l1 l2 l3 l4 h),
        "Internal Reinforcing", "IN-BRKT (2 tierod)"⟩] else []) ++
    (if 0 < intRowWcp1760 w l1 l2 l3 l4 h then
      [⟨"WCP-1760" ++ ms, pyInt (intRowWcp1760 w l1 l2 l3 l4 h),
        "Internal Reinforcing", "IN-BRKT (1 tierod)"⟩] else []) ++
    (if 0 < calcWbr9090 h then
      [⟨"WBR-9090" ++ ms, calcWbr9090 h, "Internal Reinforcing", "Corner BRKT"⟩]
     else []) ++
    (if 0 < intRowWbr1010 w l1 l2 l3 l4 h then
      [⟨"WBR-1010" ++ ms, pyInt (intRowWbr1010 w l1 l2 l3 l4 h),
        "Internal Reinforcing", "Corner BRKT"⟩] else [])

/-- `ReinforcingCalculator.calculate_all_parts`. -/
def reinforcingCalculateAllParts (w l1 l2 l3 l4 h : ℚ) (internalMaterial : ℤ)
    (insulation : Bool) : List Part :=
  (calcExternalReinforcing w l1 l2 l3 l4 h insulation ++
   calcInternalReinforcing w l1 l2 l3 l4 h (reinforcingMaterialSuffix internalMaterial)
     insulation).filter (fun p => 0 < p.quantity)

/-! ## ETCCalculator (`etc_calculator.py`) -/

/-- `ETCCalculator._calc_air_vent`. -/
def calcAirVent (w l1 l2 l3 l4 : ℚ) (nominalCapacity : ℚ) : Part :=
  let W_C : ℤ := pyInt w
  let L1_C : ℤ := pyInt l1
  let L2_C : ℤ := if l2 = 0 then 0 else pyInt l2
  let L3_C : ℤ := if l3 = 0 then 0 else pyInt l3
  let L4_C : ℤ := if l4 = 0 then 0 else pyInt l4
  let pn : String × String :=
    if nominalCapacity < 100 then ("WAV-0050A", "Air Vent 50mm") else ("WAV-0100A", "Air Vent 100mm")
  let qty : ℤ :=
    ⌈((W_C * L1_C : ℤ) : ℚ) / 30⌉ + ⌈((W_C * L2_C : ℤ) : ℚ) / 30⌉ +
    ⌈((W_C * L3_C : ℤ) : ℚ) / 30⌉ + ⌈((W_C * L4_C : ℤ) : ℚ) / 30⌉
  ⟨pn.1, max 1 qty, "ETC", pn.2⟩

/-- `ETCCalculator._calc_roof_supporter`. -/
def calcRoofSupporter (w l1 l2 l3 l4 h : ℚ) : Part :=
  let W_C : ℤ := pyInt w
  let W_F : ℚ := w - W_C
  let W_O : ℚ := (W_C : ℚ) + W_F
  let L1_C : ℤ := pyInt l1
  let L1_F : ℚ := l1 - L1_C
  let L2_O : ℚ := l2
  let L3_O : ℚ := l3
  let L4_O : ℚ := l4
  let heightMM : ℤ := pyInt (h * 1000)
  let q1 : ℤ := ⌈((W_C : ℚ) + W_F - 1) * ((L1_C : ℚ) + L1_F - 1) / 4⌉
  let q2 : ℤ := if 0 < L2_O then ⌈(W_O - 1) * (L2_O - 1) / 4⌉ else 0
  let q3 : ℤ := if 0 < L3_O then ⌊(W_O - 2) * (L3_O - 2) / 4⌋ else 0
  let q4 : ℤ := if 0 < L4_O then ⌊(W_O - 2) * (L4_O - 2) / 4⌋ else 0
  ⟨"WRS-" ++ toString heightMM ++ "F", max 0 (q1 + q2 + q3 + q4), "ETC",
   "Roof Supporter " ++ toString heightMM ++ "mm"⟩

/-- `ETCCalculator._calc_internal_ladder`: quantity `N_PA + 1`, part number
suffix `FI` for FRP (material 2) and `SI` otherwise. -/
def calcInternalLadder (l2 l3 l4 h : ℚ) (internalLadderMaterial : ℤ) : Part :=
  let heightMM : ℤ := pyInt (h * 1000)
  let suffix : String := if internalLadderMaterial = 2 then "FI" else "SI"
  ⟨"WLD-" ++ toString heightMM ++ suffix, numPartitions l2 l3 l4 + 1, "ETC",
   "Internal Ladder " ++ toString heightMM ++ "mm"⟩

/-- `ETCCalculator._calc_external_ladder`: fixed quantity 1, part number
suffix `SO` for stainless (material 2) and `ZO` otherwise. -/
def calcExternalLadder (h : ℚ) (externalLadderMaterial : ℤ) : Part :=
  let heightMM : ℤ := pyInt (h * 1000)
  let suffix : String := if externalLadderMaterial = 2 then "SO" else "ZO"
  ⟨"WLD-" ++ toString heightMM ++ suffix, 1, "ETC",
   "External Ladder " ++ toString heightMM ++ "mm"⟩

/-- `ETCCalculator._calc_silicon`. -/
def calcSilicon (w l1 l2 l3 l4 : ℚ) : Part :=
  let W_C : ℤ := pyInt w
  let W_F : ℚ := w - W_C
  let L1_C : ℤ := pyInt l1
  let L1_F : ℚ := l1 - L1_C
  let L2_C : ℤ := if l2 = 0 then 0 else pyInt l2
  let L2_F : ℚ := if l2 = 0 then 0 else l2 - L2_C
  let L3_C : ℤ := if l3 = 0 then 0 else pyInt l3
  let L3_F : ℚ := if l3 = 0 then 0 else l3 - L3_C
  let L4_C : ℤ := if l4 = 0 then 0 else pyInt l4
  let L4_F : ℚ := if l4 = 0 then 0 else l4 - L4_C
  let L_O_C : ℤ := L1_C + L2_C + L3_C + L4_C
  let L_O_F : ℚ := L1_F + L2_F + L3_F + L4_F
  let qty : ℤ := ⌈0.1 * ((W_C : ℚ) + W_F) * ((L_O_C : ℚ) + L_O_F)⌉
  ⟨"Silicon", max 1 qty, "ETC", "Silicon Sealant (Tubes)"⟩

/-- `ETCCalculator._calc_level_indicator` (`none` when the option is 0). -/
def calcLevelIndicator (l2 l3 l4 h : ℚ) (levelIndicatorType : ℤ) : Option Part :=
  if levelIndicatorType = 0 then none
  else
    let heightMM : ℤ := pyInt (h * 1000)
    let qty : ℤ := numPartitions l2 l3 l4 + 1
    if levelIndicatorType = 1 then
      some ⟨"WLV-" ++ toString heightMM ++ "SET(G)", qty, "ETC",
            "Level Indicator Glass Type " ++ toString heightMM ++ "mm"⟩
    else
      some ⟨"WLV-0000SET(S)", qty, "ETC", "Level Indicator Sensor Type"⟩

/-- Per-panel 50mm-tape length used by `_calc_panel_tape` when actual panel
data is available (substring dispatch on the part number). -/
def tapePerPanel (pn : String) : ℚ :=
  if strContains pn "RF" || strContains pn "1000R" then 2.1
  else if strContains pn "RH" || strContains pn "0500R" then 2.1
  else if strContains pn "RQ" then 1.6
  else if strContains pn "MH" || strContains pn "HOLE" then 1.1
  else if strContains pn "WF" then 4.1
  else if strContains pn "WH" then 5.2
  else if strContains pn "BF" then 4.1
  else if strContains pn "BH" then 4.1
  else if strContains pn "WC" then 4.1
  else 3.1

/-- `TAPE_PER_REINFORCING` lookup (default 0). -/
def tapePerReinforcing (pn : String) : ℚ :=
  if pn = "WCP-17160SA4" then 1.02
  else if pn = "WCP-1760SA4" then 0.30
  else if pn = "WBR-9090SA4" then 0.54
  else 0

/-- `ETCCalculator._calc_panel_tape_from_dimensions` (the dimension-only
fallback used when no actual panel data is supplied). -/
def calcPanelTapeFromDimensions (w l1 l2 l3 l4 h : ℚ) : ℚ :=
  let W_C : ℤ := pyInt w
  let W_F : ℚ := w - W_C
  let L1_C : ℤ := pyInt l1
  let L1_F : ℚ := l1 - L1_C
  let L2_C : ℤ := if l2 = 0 then 0 else pyInt l2
  let L2_F : ℚ := if l2 = 0 then 0 else l2 - L2_C
  let L3_C : ℤ := if l3 = 0 then 0 else pyInt l3
  let L3_F : ℚ := if l3 = 0 then 0 else l3 - L3_C
  let L4_C : ℤ := if l4 = 0 then 0 else pyInt l4
  let L4_F : ℚ := if l4 = 0 then 0 else l4 - L4_C
  let L_O_C : ℤ := L1_C + L2_C + L3_C + L4_C
  let L_O_F : ℚ := L1_F + L2_F + L3_F + L4_F
  let H_C : ℤ := pyInt h
  let N_PA : ℤ := numPartitions l2 l3 l4
  let manholeTape : ℚ := 1 * 2.1
  let roofFull : ℤ := W_C * L_O_C - 1
  let roofTape0 : ℚ := (roofFull : ℚ) * 2.1 + manholeTape
  let roofTape1 : ℚ := if 0 < W_F then roofTape0 + (L_O_C : ℚ) * 2.1 else roofTape0
  let roofTape2 : ℚ := if 0 < L_O_F then roofTape1 + (W_C : ℚ) * 2.1 else roofTape1
  let roofTape : ℚ := if 0 < W_F ∧ 0 < L_O_F then roofTape2 + 1.6 else roofTape2
  let wallFull1 : ℤ := W_C * L_O_C - 1
  let wallTape : ℚ := (wallFull1 : ℚ) * 4.1
  let cornerTape : ℚ := 1 * 4.1
  let partitionTape : ℚ :=
    if 0 < N_PA then
      let base : ℚ := ((W_C * H_C * N_PA : ℤ) : ℚ) * 4.1
      if 0 < W_F then base + ((H_C * N_PA : ℤ) : ℚ) * 5.2 else base
    else 0
  let baseTotal : ℚ := roofTape + wallTape + cornerTape + partitionTape
  baseTotal * 2 + 2

/-- `ETCCalculator._calc_panel_tape`: uses actual panel data when available,
otherwise the dimension-only fallback. -/
def calcPanelTape (w l1 l2 l3 l4 h : ℚ) (panelData : List Part) : ℚ :=
  if panelData ≠ [] then
    panelData.foldl (fun a p => a + (p.quantity : ℚ) * tapePerPanel p.part_no) 0
  else calcPanelTapeFromDimensions w l1 l2 l3 l4 h

/-- `ETCCalculator._calc_reinforcing_tape`: uses actual reinforcing data when
available, otherwise the dimension-only fallback. -/
def calcReinforcingTape (w l1 l2 l3 l4 : ℚ) (reinforcingData : List Part) : ℚ :=
  if reinforcingData ≠ [] then
    reinforcingData.foldl (fun a p => a + (p.quantity : ℚ) * tapePerReinforcing p.part_no) 0
  else
    let W_C : ℤ := pyInt w
    let W_F : ℚ := w - W_C
    let L1_C : ℤ := pyInt l1
    let L1_F : ℚ := l1 - L1_C
    let L2_C : ℤ := if l2 = 0 then 0 else pyInt l2
    let L2_F : ℚ := if l2 = 0 then 0 else l2 - L2_C
    let L3_C : ℤ := if l3 = 0 then 0 else pyInt l3
    let L3_F : ℚ := if l3 = 0 then 0 else l3 - L3_C
    let L4_C : ℤ := if l4 = 0 then 0 else pyInt l4
    let L4_F : ℚ := if l4 = 0 then 0 else l4 - L4_C
    let L_O_C : ℤ := L1_C + L2_C + L3_C + L4_C
    let L_O_F : ℚ := L1_F + L2_F + L3_F + L4_F
    let N_PA : ℤ := numPartitions l2 l3 l4
    let perimeter : ℚ := (W_C : ℚ) + W_F - 1 + (L_O_C : ℚ) + L_O_F - 1 - N_PA
    let wcp17160Qty : ℚ := perimeter * 2
    let wcp1760Qty : ℚ := perimeter * 2
    let wbr9090Qty : ℚ := 4
    wcp17160Qty * 1.02 + wcp1760Qty * 0.30 + wbr9090Qty * 0.54

/-- `ETCCalculator._calc_sealing_tape_50mm`. -/
def calcSealingTape50mm (w l1 l2 l3 l4 h : ℚ) (panelData reinforcingData : List Part) : Part :=
  let totalTape : ℚ :=
    calcPanelTape w l1 l2 l3 l4 h panelData + calcReinforcingTape w l1 l2 l3 l4 reinforcingData
  ⟨"WST-0050RO", max 1 ⌈totalTape⌉, "ETC", "Sealing Tape 50mm (Meters)"⟩

/-- `ETCCalculator._calc_sealing_tape_120mm`: quantity `4*H_O + 1`. -/
def calcSealingTape120mm (h : ℚ) : Part :=
  ⟨"WST-0120RO", pyInt (4 * h + 1), "ETC", "Sealing Tape 120mm (Roll)"⟩

/-- `ETCCalculator.calculate_all_parts`. -/
def etcCalculateAllParts (w l1 l2 l3 l4 h : ℚ) (nominalCapacity : ℚ)
    (levelIndicatorType internalLadderMaterial externalLadderMaterial : ℤ)
    (panelData reinforcingData : List Part) : List Part :=
  let parts : List Part :=
    [calcAirVent w l1 l2 l3 l4 nominalCapacity] ++
    [calcRoofSupporter w l1 l2 l3 l4 h] ++
    [calcInternalLadder l2 l3 l4 h internalLadderMaterial] ++
    [calcExternalLadder h externalLadderMaterial] ++
    [calcSilicon w l1 l2 l3 l4] ++
    (match calcLevelIndicator l2 l3 l4 h levelIndicatorType with
     | some p => [p]
     | none => []) ++
    [calcSealingTape50mm w l1 l2 l3 l4 h panelData reinforcingData] ++
    [calcSealingTape120mm h]
  parts.filter (fun p => 0 < p.quantity)

/-! ## DataLoader (`data_loader.py`) and the BOM assembly of
`CalculationEngine` (`calculation_engine.py`) -/

/-- One entry of the price catalog (`prices_complete.json`, as parsed by
`DataLoader.get_prices`). -/
structure PriceEntry where
  name : String
  price_usd : ℚ
deriving DecidableEq, Repr

/-- The external parts catalog: price map and weight map, both keyed by part
number and possibly missing a part. -/
structure Catalog where
  prices : String → Option PriceEntry
  weights : String → Option ℚ

/-- Result of `DataLoader.get_part_info`. -/
structure PartInfo where
  name : String
  price_usd : ℚ
  weight_kg : ℚ
deriving DecidableEq, Repr

/-- `DataLoader.get_part_info`: a catalog miss yields zero-valued fields and
never fails. -/
def getPartInfo (c : Catalog) (pn : String) : PartInfo :=
  let priceData := c.prices pn
  { name := match priceData with | some e => e.name | none => ""
    price_usd := match priceData with | some e => e.price_usd | none => 0
    weight_kg := match c.weights pn with | some q => q | none => 0 }

/-- A BOM line item (`schemas/tank.py BOMItem`). -/
structure BOMItem where
  part_no : String
  part_name : String
  quantity : ℤ
  unit_price_usd : ℚ
  total_price_usd : ℚ
  weight_kg : ℚ
  total_weight_kg : ℚ
  category : String
deriving DecidableEq, Repr

/-- `CalculationEngine._add_bom_item`: drops quantities `≤ 0`, otherwise
resolves the part against the catalog and appends a line with rounded
totals. -/
def addBomItem (c : Catalog) (items : List BOMItem) (pn : String) (q : ℤ)
    (cat : String) : List BOMItem :=
  if q ≤ 0 then items
  else
    let info := getPartInfo c pn
    items ++ [{ part_no := pn
                part_name := info.name
                quantity := q
                unit_price_usd := info.price_usd
                total_price_usd := round2 (info.price_usd * q)
                weight_kg := info.weight_kg
                total_weight_kg := round2 (info.weight_kg * q)
                category := cat }]

/-- `CalculationEngine._add_parts_from_calculator`: each calculator part is
added with its quantity multiplied by the requested tank quantity. -/
def addPartsFromCalculator (c : Catalog) (tankQty : ℤ) (items : List BOMItem)
    (parts : List Part) : List BOMItem :=
  parts.foldl (fun acc p => addBomItem c acc p.part_no (p.quantity * tankQty) p.category) items

/-- `CapacityInfo` response fields. -/
structure CapacityInfo where
  nominal_capacity_m3 : ℚ
  actual_capacity_m3 : ℚ
  surface_area_m2 : ℚ
  total_length : ℚ
  num_partitions : ℤ
deriving DecidableEq, Repr

/-- `CalculationEngine._calculate_capacity`. -/
def calcCapacity (w l1 l2 l3 l4 h : ℚ) : CapacityInfo :=
  let totalLength : ℚ := l1 + l2 + l3 + l4
  let nPart : ℤ := numPartitions l2 l3 l4
  let nominal : ℚ := w * totalLength * h
  let actual : ℚ := max 0 (w * totalLength * (h - 0.2))
  let surface : ℚ :=
    2 * (w * totalLength + w * h + totalLength * h) + w * h * nPart
  { nominal_capacity_m3 := round2 nominal
    actual_capacity_m3 := round2 actual
    surface_area_m2 := round2 surface
    total_length := totalLength
    num_partitions := nPart }

/-- `CostSummary` response fields. -/
structure CostSummary where
  panels : ℚ
  steel_skid : ℚ
  bolts_nuts : ℚ
  external_reinforcing : ℚ
  internal_reinforcing : ℚ
  internal_tie_rod : ℚ
  etc : ℚ
  fittings : ℚ
  total_usd : ℚ
  total_sar : ℚ
deriving DecidableEq, Repr

/-- Sum of `total_price_usd` over the BOM lines of one category
(the accumulation loop of `_calculate_cost_summary`). -/
def sumPriceCat (bom : List BOMItem) (cat : String) : ℚ :=
  (bom.filter (fun i => i.category = cat)).foldl (fun a i => a + i.total_price_usd) 0

/-- `CalculationEngine._calculate_cost_summary`. -/
def calcCostSummary (bom : List BOMItem) (exchangeRate : ℚ) : CostSummary :=
  let cPanels := sumPriceCat bom "Panels"
  let cSteel := sumPriceCat bom "Steel Skid"
  let cBolts := sumPriceCat bom "Bolts & Nuts"
  let cExtR := sumPriceCat bom "External Reinforcing"
  let cIntR := sumPriceCat bom "Internal Reinforcing"
  let cIntTR := sumPriceCat bom "Internal Tie-rod"
  let cTR := sumPriceCat bom "Tie Rods"
  let cTRA := sumPriceCat bom "Tie Rod Accessories"
  let cETC := sumPriceCat bom "ETC"
  let cEtc2 := sumPriceCat bom "Etc"
  let cFit := sumPriceCat bom "Fittings"
  let totalTieRod := cIntTR + cTR + cTRA
  let totalEtc := cETC + cEtc2
  let totalUsd := cPanels + cSteel + cBolts + cExtR + cIntR + cIntTR + cTR + cTRA +
    cETC + cEtc2 + cFit
  let totalSar := totalUsd * exchangeRate
  { panels := round2 cPanels
    steel_skid := round2 cSteel
    bolts_nuts := round2 cBolts
    external_reinforcing := round2 cExtR
    internal_reinforcing := round2 cIntR
    internal_tie_rod := round2 totalTieRod
    etc := round2 totalEtc
    fittings := round2 cFit
    total_usd := round2 totalUsd
    total_sar := round2 totalSar }

/-- `WeightSummary` response fields. -/
structure WeightSummary where
  panels_kg : ℚ
  steel_kg : ℚ
  accessories_kg : ℚ
  total_kg : ℚ
deriving DecidableEq, Repr

/-- Sum of `total_weight_kg` over the BOM lines whose category is in the
given list. -/
def sumWeightCats (bom : List BOMItem) (cats : List String) : ℚ :=
  (bom.filter (fun i => cats.contains i.category)).foldl (fun a i => a + i.total_weight_kg) 0

/-- `CalculationEngine._calculate_weight_summary`. -/
def calcWeightSummary (bom : List BOMItem) : WeightSummary :=
  let panelsW := sumWeightCats bom ["Panels"]
  let steelW := sumWeightCats bom
    ["Steel Skid", "Bolts & Nuts", "External Reinforcing", "Internal Reinforcing",
     "Internal Tie-rod", "Tie Rods", "Tie Rod Accessories"]
  let accW := sumWeightCats bom ["Etc", "ETC", "Fittings"]
  { panels_kg := round2 panelsW
    steel_kg := round2 steelW
    accessories_kg := round2 accW
    total_kg := round2 (panelsW + steelW + accW) }

/-! ## Orchestrator wiring (`CalculationEngine._calculate_*`) -/

/-- `_calculate_bolts_nuts`: option-string to code map (default 1). -/
def boltOptionCode (s : String) : ℤ :=
  if s = "EXT:HDG/INT:SS304+R/F:HDG" then 1
  else if s = "EXT:HDG/INT:SS304+R/F:SS304" then 2
  else if s = "EXT:SS304/INT:SS316" then 3
  else if s = "EXT:HDG/INT:SS316" then 4
  else if s = "EXT:SS304/INT:SS304" then 5
  else if s = "EXT:SS316/INT:SS316" then 6
  else if s = "Except All Bolts" then 7
  else if s = "Except Panel Assemble Bolts" then 8
  else 1

/-- `_calculate_steel_skid`: option-string to skid-type map (default 1). -/
def skidTypeCode (s : String) : ℤ :=
  if s = "Default" then 1
  else if s = "Angle 75" then 2
  else if s = "Channel 125" then 3
  else if s = "Channel 150" then 4
  else if s = "Except SKB" then 5
  else 1

/-- `_calculate_reinforcing`: `2` when the internal-material string contains
`"SS316"`, else `4`. -/
def internalMaterialCode (s : String) : ℤ := if strContains s "SS316" then 2 else 4

/-- `_calculate_etc`: the engine constructs the `ETCCalculator` without
panel or reinforcing data, so both data lists are empty and the ETC module
always uses its dimension-only fallbacks. -/
def engineEtcParts (w l1 l2 l3 l4 h : ℚ)
    (levelIndicatorType internalLadderMaterial externalLadderMaterial : ℤ) : List Part :=
  etcCalculateAllParts w l1 l2 l3 l4 h (w * (l1 + l2 + l3 + l4) * h)
    levelIndicatorType internalLadderMaterial externalLadderMaterial [] []

/-- Parameter names accepted by `BoltsCalculator.__init__`
(bolts_calculator.py, besides `self`). -/
def boltsCalculatorInitParams : List String :=
  ["width", "length1", "length2", "length3", "length4", "height", "bolt_option",
   "skid_type", "insulation_type", "steel_skid_m9", "steel_skid_m36",
   "ext_reinforcing_l22", "ext_reinforcing_l23", "ext_reinforcing_l24",
   "int_reinforcing_p18", "int_reinforcing_p19"]

/-- Keyword-argument names used by the `BoltsCalculator(...)` call in
`CalculationEngine._calculate_bolts_nuts` (calculation_engine.py:190-199). -/
def engineBoltsCallKeywords : List String :=
  ["width", "length1", "length2", "length3", "length4", "height", "bolt_option",
   "use_side_1x1"]

/-- `_calculate_bolts_nuts`: Python call semantics — a keyword argument that
is not a parameter of the callee raises `TypeError`, modelled as `none`
(`use_side_1x1` is passed but `BoltsCalculator.__init__` has no such
parameter). Were the keywords accepted, the call would construct the
calculator with only the bolt option set, every cross-sheet value of
`BoltsCalculator.__init__` keeping its default (`skid_type=1`, zeros
elsewhere). -/
def engineBoltsParts (w l1 l2 l3 l4 h : ℚ) (boltOptionStr : String) : Option (List Part) :=
  if engineBoltsCallKeywords.all (fun k => boltsCalculatorInitParams.contains k) then
    some (boltsCalculateAllParts w l1 l2 l3 l4 h { boltOption := boltOptionCode boltOptionStr })
  else none

/-! ## Helper lemmas -/

set_option maxRecDepth 40000

lemma pyRound_nonneg {q : ℚ} (hq : 0 ≤ q) : 0 ≤ pyRound q := by
  have h0 : (0 : ℤ) ≤ ⌊q⌋ := Int.floor_nonneg.2 hq
  simp only [pyRound]
  split_ifs <;> omega

lemma round2_nonneg {q : ℚ} (hq : 0 ≤ q) : 0 ≤ round2 q := by
  unfold round2
  have h1 : (0 : ℚ) ≤ q * 100 := by positivity
  have h2 : (0 : ℤ) ≤ pyRound (q * 100) := pyRound_nonneg h1
  positivity

lemma pyRound_zero : pyRound 0 = 0 := by
  norm_num [pyRound]

lemma round2_zero : round2 0 = 0 := by
  norm_num [round2, pyRound_zero]

lemma mem_addBomItem_pos (c : Catalog) (items : List BOMItem) (pn : String) (q : ℤ)
    (cat : String) (hitems : ∀ i ∈ items, 0 < i.quantity) :
    ∀ i ∈ addBomItem c items pn q cat, 0 < i.quantity := by
  intro i hi
  unfold addBomItem at hi
  by_cases hq : q ≤ 0
  · rw [if_pos hq] at hi
    exact hitems i hi
  · rw [if_neg hq] at hi
    rcases List.mem_append.1 hi with h | h
    · exact hitems i h
    · simp only [List.mem_singleton] at h
      subst h
      show 0 < q
      omega

lemma addParts_pos_aux (c : Catalog) (N : ℤ) :
    ∀ (parts : List Part) (items : List BOMItem),
      (∀ i ∈ items, 0 < i.quantity) →
      ∀ i ∈ addPartsFromCalculator c N items parts, 0 < i.quantity := by
  intro parts
  induction parts with
  | nil => intro items hitems i hi; exact hitems i hi
  | cons p ps ih =>
      intro items hitems i hi
      unfold addPartsFromCalculator at hi
      rw [List.foldl_cons] at hi
      exact ih (addBomItem c items p.part_no (p.quantity * N) p.category)
        (mem_addBomItem_pos c items p.part_no (p.quantity * N) p.category hitems) i hi

lemma addParts_scale_aux (c : Catalog) (N : ℤ) (hN : 0 < N) :
    ∀ (parts : List Part) (acc1 acc2 : List BOMItem),
      acc1.map (fun i => (i.part_no, i.quantity))
        = acc2.map (fun i => (i.part_no, N * i.quantity)) →
      (addPartsFromCalculator c N acc1 parts).map (fun i => (i.part_no, i.quantity))
        = (addPartsFromCalculator c 1 acc2 parts).map (fun i => (i.part_no, N * i.quantity)) := by
  intro parts
  induction parts with
  | nil => intro acc1 acc2 hacc; exact hacc
  | cons p ps ih =>
      intro acc1 acc2 hacc
      unfold addPartsFromCalculator
      rw [List.foldl_cons, List.foldl_cons]
      refine ih _ _ ?_
      by_cases hq : p.quantity ≤ 0
      · have hqN : p.quantity * N ≤ 0 := by
          have := mul_le_mul_of_nonneg_right hq hN.le
          simpa using this
        have hq1 : p.quantity * 1 ≤ 0 := by simpa using hq
        unfold addBomItem
        rw [if_pos hqN, if_pos hq1]
        exact hacc
      · push_neg at hq
        have hqN : ¬ p.quantity * N ≤ 0 := by
          push_neg
          exact mul_pos hq hN
        have hq1 : ¬ p.quantity * 1 ≤ 0 := by
          push_neg
          simpa using hq
        unfold addBomItem
        rw [if_neg hqN, if_neg hq1]
        rw [List.map_append, List.map_append, hacc]
        simp [mul_comm]

/-! ## Claim theorems -/

unseal Rat.add Rat.mul Rat.sub Rat.inv Rat.ofScientific in
/-- C1: golden vector width=5, length1=5, height=2, quantity=1, default
options (bolt option "EXT:HDG/INT:SS316"). The orchestrated bolts step
raises `TypeError` (`_calculate_bolts_nuts` passes the keyword
`use_side_1x1`, which `BoltsCalculator.__init__` does not accept), so the
calculation aborts and emits no BOM at this input — none of the claimed
quantities appear. At module level the panel and ETC calculators do
reproduce manhole 1, full-roof panel RF00M 24, side panel SL20S 20 and 9
rolls of 120mm sealing tape; and even with the intended arguments (bolt
option 4, every cross-sheet input at its zero default) the M14x40 bolt line
WBT-1440Z would come out as 72, not the claimed 90. -/
theorem C1_golden_vector_eval :
    engineBoltsParts 5 5 0 0 0 2 "EXT:HDG/INT:SS316" = none ∧
    qtyOf (calculateAllPanels 5 5 0 0 0 2 false false) "MF00M" = 1 ∧
    qtyOf (calculateAllPanels 5 5 0 0 0 2 false false) "RF00M" = 24 ∧
    qtyOf (calculateAllPanels 5 5 0 0 0 2 false false) "SL20S" = 20 ∧
    qtyOf (boltsCalculateAllParts 5 5 0 0 0 2 ⟨4, 1, 0, 0, 0, 0, 0, 0, 0, 0⟩)
      "WBT-1440Z" = 72 ∧
    qtyOf (engineEtcParts 5 5 0 0 0 2 1 2 1) "WST-0120RO" = 9 := by
  decide

unseal Rat.add Rat.mul Rat.sub Rat.inv Rat.ofScientific in
/-- C4: in the orchestrated calculation the ETC module is constructed without
the panel and reinforcing module outputs, so the 50mm sealing tape always
comes from the dimension-only fallback (336 m at 5x5x2 with default options)
whereas feeding it the actual panel and reinforcing outputs of the same
request yields 217 m. -/
theorem C4_tape_fallback_eval :
    qtyOf (engineEtcParts 5 5 0 0 0 2 1 2 1) "WST-0050RO" = 336 ∧
    qtyOf (etcCalculateAllParts 5 5 0 0 0 2 50 1 2 1
      (calculateAllPanels 5 5 0 0 0 2 false false)
      (reinforcingCalculateAllParts 5 5 0 0 0 2 2 false)) "WST-0050RO" = 217 := by
  decide

/-- C10: the reported actual capacity is `round2 (max 0 (w·L·(h-0.2)))`; it
is never negative, and it is exactly 0 whenever `h ≤ 0.2` (for nonnegative
dimensions), even though such heights pass the `height > 0` boundary
validation. -/
theorem C10_actual_capacity (w l1 l2 l3 l4 h : ℚ) :
    (calcCapacity w l1 l2 l3 l4 h).actual_capacity_m3
      = round2 (max 0 (w * (l1 + l2 + l3 + l4) * (h - 0.2))) ∧
    0 ≤ (calcCapacity w l1 l2 l3 l4 h).actual_capacity_m3 ∧
    (0 ≤ w → 0 ≤ l1 → 0 ≤ l2 → 0 ≤ l3 → 0 ≤ l4 → h ≤ 0.2 →
      (calcCapacity w l1 l2 l3 l4 h).actual_capacity_m3 = 0) := by
  refine ⟨rfl, ?_, ?_⟩
  · exact round2_nonneg (le_max_left 0 _)
  · intro hw h1 h2 h3 h4 hh
    show round2 (max 0 (w * (l1 + l2 + l3 + l4) * (h - 0.2))) = 0
    have hL : 0 ≤ l1 + l2 + l3 + l4 := by linarith
    have hprod : w * (l1 + l2 + l3 + l4) * (h - 0.2) ≤ 0 :=
      mul_nonpos_of_nonneg_of_nonpos (mul_nonneg hw hL) (by linarith)
    rw [max_eq_left hprod, round2_zero]

/-- Witness for C10 at the concrete input w=1, l1=1, h=0.1. -/
theorem C10_actual_capacity_witness :
    (calcCapacity 1 1 0 0 0 0.1).actual_capacity_m3 = 0 :=
  (C10_actual_capacity 1 1 0 0 0 0.1).2.2 (by norm_num) (by norm_num) (by norm_num)
    (by norm_num) (by norm_num) (by norm_num)

/-- C9: resolving a part number absent from both catalog maps is non-fatal:
the BOM line is still emitted with zero unit price, zero unit weight, zero
line totals and an empty resolved name, and the accumulated list is otherwise
unchanged. -/
theorem C9_catalog_miss (c : Catalog) (items : List BOMItem) (pn : String) (q : ℤ)
    (cat : String) (hp : c.prices pn = none) (hw : c.weights pn = none) (hq : 0 < q) :
    addBomItem c items pn q cat = items ++ [⟨pn, "", q, 0, 0, 0, 0, cat⟩] := by
  unfold addBomItem getPartInfo
  rw [if_neg (by omega), hp, hw]
  simp [round2_zero]

/-- Witness for C9 with an everywhere-empty catalog and quantity 3. -/
theorem C9_catalog_miss_witness :
    addBomItem ⟨fun _ => none, fun _ => none⟩ [] "WXX-0000" 3 "ETC"
      = [⟨"WXX-0000", "", 3, 0, 0, 0, 0, "ETC"⟩] :=
  C9_catalog_miss ⟨fun _ => none, fun _ => none⟩ [] "WXX-0000" 3 "ETC" rfl rfl (by norm_num)

/-- C2: every BOM line produced by the orchestrator's accumulation
(`_add_parts_from_calculator` over `_add_bom_item`) has a strictly positive
quantity; computed quantities `≤ 0` are dropped. -/
theorem C2_positive_quantities (c : Catalog) (N : ℤ) (parts : List Part) :
    ∀ i ∈ addPartsFromCalculator c N [] parts, 0 < i.quantity :=
  addParts_pos_aux c N parts [] (by intro i hi; cases hi)

unseal Rat.add Rat.mul Rat.sub Rat.inv Rat.ofScientific in
/-- Witness for C2: a concrete BOM line obtained from a 2-of-"X" part with an
empty catalog has positive quantity. -/
theorem C2_positive_quantities_witness :
    0 < (⟨"X", "", 2, 0, 0, 0, 0, "Panels"⟩ : BOMItem).quantity :=
  C2_positive_quantities ⟨fun _ => none, fun _ => none⟩ 1 [⟨"X", 2, "Panels", "d"⟩]
    ⟨"X", "", 2, 0, 0, 0, 0, "Panels"⟩ (by decide)

/-- Concrete catalog for the C3 counterexample: one part priced 0.001 USD. -/
def c3Catalog : Catalog :=
  ⟨fun pn => if pn = "P1" then some ⟨"Part One", 0.001⟩ else none, fun _ => none⟩

/-- Concrete one-line part list for the C3 counterexample. -/
def c3Parts : List Part := [⟨"P1", 1, "Panels", ""⟩]

unseal Rat.add Rat.mul Rat.sub Rat.inv Rat.ofScientific in
/-- C3 counterexample: with a catalog part priced 0.001 USD, the per-category
cost figure for quantity 10 (0.01, from `round2 (0.001·10)`) is not 10 times
the quantity-1 figure (0, from `round2 0.001`): per-line rounding breaks
exact cost linearity. -/
theorem C3_cost_scaling_cex :
    (calcCostSummary (addPartsFromCalculator c3Catalog 10 [] c3Parts) 3.75).panels
      ≠ 10 * (calcCostSummary (addPartsFromCalculator c3Catalog 1 [] c3Parts) 3.75).panels := by
  decide

/-- C3 (amended): the BOM line quantities do scale exactly linearly — for
`quantity = N > 0` every emitted line carries `N ×` the quantity-1 amount and
the same part numbers — while the rounded cost/weight figures need not. -/
theorem C3_quantity_scaling (c : Catalog) (parts : List Part) (N : ℤ) (hN : 0 < N) :
    (addPartsFromCalculator c N [] parts).map (fun i => (i.part_no, i.quantity))
      = (addPartsFromCalculator c 1 [] parts).map (fun i => (i.part_no, N * i.quantity)) :=
  addParts_scale_aux c N hN parts [] [] rfl

unseal Rat.add Rat.mul Rat.sub Rat.inv Rat.ofScientific in
/-- Witness for C3 at N = 3 on a concrete part list. -/
theorem C3_quantity_scaling_witness :
    (addPartsFromCalculator ⟨fun _ => none, fun _ => none⟩ 3 []
        [⟨"X", 2, "Panels", "d"⟩]).map (fun i => (i.part_no, i.quantity))
      = (addPartsFromCalculator ⟨fun _ => none, fun _ => none⟩ 1 []
        [⟨"X", 2, "Panels", "d"⟩]).map (fun i => (i.part_no, 3 * i.quantity)) :=
  C3_quantity_scaling ⟨fun _ => none, fun _ => none⟩ [⟨"X", 2, "Panels", "d"⟩] 3 (by norm_num)

/-- C5: steel-skid type resolution — under the default selection (code 1) the
height rule picks the 150 channel above 4.3 m, the 125 channel above 2.5 m,
and the 75 angle otherwise (for positive heights); explicit selections 2-5
map directly; and a resolution of "except" makes the module return no
parts. -/
theorem C5_skid_type_resolution (w l1 l2 l3 l4 h : ℚ) (t : ℤ) :
    (t = 1 → 4.3 < h → resolveSkidType h t = "150_channel") ∧
    (t = 1 → 2.5 < h → h ≤ 4.3 → resolveSkidType h t = "125_channel") ∧
    (t = 1 → 0 < h → h ≤ 2.5 → resolveSkidType h t = "75_angle") ∧
    (t = 2 → resolveSkidType h t = "75_angle") ∧
    (t = 3 → resolveSkidType h t = "125_channel") ∧
    (t = 4 → resolveSkidType h t = "150_channel") ∧
    (t = 5 → resolveSkidType h t = "except") ∧
    (resolveSkidType h t = "except" → steelSkidCalculateAllParts w l1 l2 l3 l4 h t = []) := by
  refine ⟨?_, ?_, ?_, ?_, ?_, ?_, ?_, ?_⟩
  · rintro rfl h43
    simp only [resolveSkidType]
    rw [if_neg (by norm_num), if_neg (by norm_num), if_neg (by norm_num),
      if_neg (by norm_num), if_pos h43]
  · rintro rfl h25 h43
    simp only [resolveSkidType]
    rw [if_neg (by norm_num), if_neg (by norm_num), if_neg (by norm_num),
      if_neg (by norm_num), if_neg (by linarith), if_pos h25]
  · rintro rfl h0 h25
    simp only [resolveSkidType]
    rw [if_neg (by norm_num), if_neg (by norm_num), if_neg (by norm_num),
      if_neg (by norm_num), if_neg (by linarith), if_neg (by linarith), if_pos h0]
  · rintro rfl
    simp [resolveSkidType]
  · rintro rfl
    simp [resolveSkidType]
  · rintro rfl
    simp [resolveSkidType]
  · rintro rfl
    simp [resolveSkidType]
  · intro he
    simp only [steelSkidCalculateAllParts]
    rw [if_pos he]

/-- Witness for C5 at concrete heights 5, 3, 2 and the explicit "except"
selection. -/
theorem C5_skid_type_resolution_witness :
    resolveSkidType 5 1 = "150_channel" ∧ resolveSkidType 3 1 = "125_channel" ∧
    resolveSkidType 2 1 = "75_angle" ∧ resolveSkidType 2 5 = "except" ∧
    steelSkidCalculateAllParts 5 5 0 0 0 2 5 = [] :=
  ⟨(C5_skid_type_resolution 5 5 0 0 0 5 1).1 rfl (by norm_num),
   (C5_skid_type_resolution 5 5 0 0 0 3 1).2.1 rfl (by norm_num) (by norm_num),
   (C5_skid_type_resolution 5 5 0 0 0 2 1).2.2.1 rfl (by norm_num) (by norm_num),
   (C5_skid_type_resolution 5 5 0 0 0 2 5).2.2.2.2.2.2.1 rfl,
   (C5_skid_type_resolution 5 5 0 0 0 2 5).2.2.2.2.2.2.2
     ((C5_skid_type_resolution 5 5 0 0 0 2 5).2.2.2.2.2.2.1 rfl)⟩

unseal Rat.add Rat.mul Rat.sub Rat.inv Rat.ofScientific in
/-- C6 counterexample: at 5x5x2 with the orchestrator's default cross-sheet
zeroes, "Except Panel Assemble Bolts" (option 8) yields an empty bolt list —
the internal roof bolts are suppressed too, not left in the output (option 4
emits 160 of them as WBT-1035SA2). -/
theorem C6_except_panel_bolts_cex :
    boltsCalculateAllParts 5 5 0 0 0 2 ⟨8, 1, 0, 0, 0, 0, 0, 0, 0, 0⟩ = [] ∧
    qtyOf (boltsCalculateAllParts 5 5 0 0 0 2 ⟨4, 1, 0, 0, 0, 0, 0, 0, 0, 0⟩)
      "WBT-1035SA2" = 160 := by
  decide

/-- C6 (amended): "Except All Bolts" (option 7) returns an empty part list;
"Except Panel Assemble Bolts" (option 8) suppresses every bolt family —
external and internal alike — except the external-reinforcing rubber bolt
WBT-14120RD, the only part number that can still appear. -/
theorem C6_bolt_except_options (w l1 l2 l3 l4 h : ℚ)
    (sk ins m9 m36 l22 l23 l24 p18 p19 : ℤ) :
    boltsCalculateAllParts w l1 l2 l3 l4 h ⟨7, sk, ins, m9, m36, l22, l23, l24, p18, p19⟩
      = [] ∧
    ∀ p ∈ boltsCalculateAllParts w l1 l2 l3 l4 h ⟨8, sk, ins, m9, m36, l22, l23, l24, p18, p19⟩,
      p.part_no = "WBT-14120RD" := by
  constructor
  · simp only [boltsCalculateAllParts]
    simp
  · intro p hp
    simp only [boltsCalculateAllParts, boltExternalMaterial, boltInternalMaterial] at hp
    norm_num at hp
    rcases hp with ⟨⟨_, rfl⟩, _⟩
    rfl

unseal Rat.add Rat.mul Rat.sub Rat.inv Rat.ofScientific in
/-- Witness for C6: the WBT-14120RD line produced under option 8 with one
external-reinforcing bracket input indeed carries that part number. -/
theorem C6_bolt_except_options_witness :
    (⟨"WBT-14120RD", 2, "Bolts & Nuts", "M14x120mm Rubber HDG Bolt"⟩ : Part).part_no
      = "WBT-14120RD" :=
  (C6_bolt_except_options 5 5 0 0 0 2 1 0 0 0 1 0 0 0 0).2
    ⟨"WBT-14120RD", 2, "Bolts & Nuts", "M14x120mm Rubber HDG Bolt"⟩ (by decide)

unseal Rat.add Rat.mul Rat.sub Rat.inv Rat.ofScientific in
/-- C7 counterexample: at 5x5x2 the internal reinforcing part numbers differ
between the SS316 selection (suffix SA2) and the SS304 selection (suffix
SA4), so they are not independent of the internal-material option. -/
theorem C7_internal_suffix_cex :
    (calcInternalReinforcing 5 5 0 0 0 2
        (reinforcingMaterialSuffix (internalMaterialCode "SS316")) false).map Part.part_no
      ≠ (calcInternalReinforcing 5 5 0 0 0 2
        (reinforcingMaterialSuffix (internalMaterialCode "SS304")) false).map Part.part_no := by
  decide

lemma qcatPairMk (pn : String) (q : ℤ) (c d : String) :
    (fun p : Part => (p.quantity, p.category)) (⟨pn, q, c, d⟩ : Part) = (q, c) := rfl

set_option maxHeartbeats 2000000 in
/-- C7 (amended): the internal reinforcing output depends on the
internal-material selection only through the part-number suffix computed in
`__init__` (SA2 for SS316, SA4 otherwise): the quantities and categories of
the emitted lines are identical for any two suffixes. -/
theorem C7_internal_material_independence (w l1 l2 l3 l4 h : ℚ) (s1 s2 : String)
    (ins : Bool) :
    (calcInternalReinforcing w l1 l2 l3 l4 h s1 ins).map (fun p => (p.quantity, p.category))
      = (calcInternalReinforcing w l1 l2 l3 l4 h s2 ins).map
          (fun p => (p.quantity, p.category)) ∧
    reinforcingMaterialSuffix 2 = "SA2" ∧ reinforcingMaterialSuffix 4 = "SA4" := by
  refine ⟨?_, by norm_num [reinforcingMaterialSuffix], by norm_num [reinforcingMaterialSuffix]⟩
  simp only [calcInternalReinforcing]
  by_cases hlt : h < 1.5
  · rw [if_pos hlt, if_pos hlt]
  · rw [if_neg hlt, if_neg hlt]
    simp only [List.map_append,
      apply_ite (List.map (fun p : Part => (p.quantity, p.category))),
      List.map_cons, List.map_nil, qcatPairMk]

/-- C8: the manhole and drain panel lines and the internal-ladder line each
carry quantity `PartitionCount + 1`; exactly one external ladder is emitted
regardless of partitions; and the ladder material selections change only the
part-number suffix (FI/SI internally, SO/ZO externally). -/
theorem C8_per_compartment_counts (l2 l3 l4 h : ℚ) (mi me : ℤ) :
    calcManhole l2 l3 l4
      = [⟨"MF00M", 1 + numPartitions l2 l3 l4, "Panels", "Manhole Panel"⟩] ∧
    calcDrainPanels l2 l3 l4 h
      = [⟨"DN" ++ drainSuffix (getHeightKey h), 1 + numPartitions l2 l3 l4,
          "Panels", "Drain Panel"⟩] ∧
    (calcInternalLadder l2 l3 l4 h mi).quantity = numPartitions l2 l3 l4 + 1 ∧
    (calcInternalLadder l2 l3 l4 h mi).part_no
      = "WLD-" ++ toString (pyInt (h * 1000)) ++ (if mi = 2 then "FI" else "SI") ∧
    (calcExternalLadder h me).quantity = 1 ∧
    (calcExternalLadder h me).part_no
      = "WLD-" ++ toString (pyInt (h * 1000)) ++ (if me = 2 then "SO" else "ZO") := by
  exact ⟨rfl, rfl, rfl, rfl, rfl, rfl⟩

end TankCfg
